import Mathlib

/-
Verification of the MP report automation workflow orchestrator
(src/workflow.py, with the collaborator behaviour of src/jira_client.py,
src/notifier.py, src/sql_client.py and src/tableau_client.py).

Shallow embedding conventions:
 - External collaborator calls are determinized by an `Env` record.  A call
   that the Python source allows to raise is modelled as an
   `Except String _` value (the `.error e` case is a raised exception with
   `str(e) = e`); a call whose own source catches every exception and
   returns a tuple is modelled as a plain tuple.
 - Object state (`self.steps`, `self.start_time`, `self.ticket_jira`) is the
   explicit `WState`; wall-clock durations are abstracted to `0` (real time
   is not representable), so `start_time` is an abstract `Nat` supplied by
   the caller and every `duracion` is `0`.
 - Runs additionally record an `events` trace of the observable side
   effects (observer callback, ticket-creation attempt, error alert,
   success summary) so that effect claims can be stated; the trace is pure
   instrumentation and is only ever appended to.
 - A Python function that may let an exception escape returns `RunOut α`:
   either a normal value or a raised error text, in both cases together
   with the object state at that moment.
-/

/-- Accion: one row returned by the reconciliation query, read through
`accion.get('Accion1', '')` etc.; a missing key gives the default value. -/
structure Accion where
  accion1 : String := ""
  accion2 : String := ""
  nombreUbicacion : String := "Desconocida"
deriving Repr, DecidableEq

/-- Detalles: the diagnostic `detalles` dict of a StepResult.  Only the keys
the workflow ever reads or writes are modelled; `{}` is the record with all
defaults (the empty dict). -/
structure Detalles where
  hay_diferencias : Bool := false
  acciones : List Accion := []
  archivos : List String := []
  last_updated : Option Nat := none
deriving Repr, DecidableEq

/-- StepResult from src/workflow.py (duracion abstracted to 0). -/
structure StepResult where
  nombre : String
  success : Bool
  mensaje : String
  duracion : Nat := 0
  detalles : Detalles := {}
deriving Repr, DecidableEq

/-- One observable side effect of a run, in occurrence order. -/
inductive Event where
  | observerCall (resultado : StepResult)
  | ticketAttempt (titulo descripcion : String)
  | alerta (titulo mensaje : String) (ticket : Option String)
  | resumen (exito : Bool)
deriving Repr, DecidableEq

/-- Mutable state of a ReportWorkflow instance. -/
structure WState where
  steps : List StepResult
  startTime : Option Nat
  ticket_jira : Option String
  events : List Event
deriving Repr, DecidableEq

/-- A fresh ReportWorkflow instance (constructor state). -/
def initState : WState :=
  { steps := [], startTime := none, ticket_jira := none, events := [] }

/-- Outcome of a Python call that may let an exception escape: the normal
return value or the raised error text, with the object state either way. -/
inductive RunOut (α : Type) where
  | ok (val : α) (st : WState)
  | raised (err : String) (st : WState)
deriving Repr

def RunOut.state : RunOut α → WState
  | RunOut.ok _ st => st
  | RunOut.raised _ st => st

def RunOut.isRaised : RunOut α → Bool
  | RunOut.ok _ _ => false
  | RunOut.raised _ _ => true

/-- Determinized behaviour of every external collaborator call a run can
make.  Fields whose Python counterpart can raise are `Except String _`;
fields whose Python counterpart catches internally are plain tuples.
Calls that can occur several times in one run take a call index. -/
structure Env where
  /-- `TableauClient.validar_extracto` (can raise, e.g. RuntimeError when
  not connected): `(is_valid, message, last_updated)`, by call index. -/
  validarExtracto : Nat → Except String (Bool × String × Option Nat)
  /-- `TableauClient.refresh_extracto` (find_datasource before the try can
  raise): `(success, message)`. -/
  refreshExtracto : Except String (Bool × String)
  /-- `InfoCentralClient.validar_inventario` (re-raises on SQL error):
  `(hay_diferencias, mensaje, acciones)`. -/
  validarInventario : Except String (Bool × String × List Accion)
  /-- `SQLClient.execute_job` as observed by the workflow (its own source
  catches every exception): `(success, message)`, by call index and name. -/
  executeJob : Nat → String → Bool × String
  /-- `CubosOfiClient.ejecutar_job_inventario` (never raises). -/
  jobInventario : Bool × String
  /-- body of `ReportWorkflow._descargar_pdfs` (os cleanup or download can
  raise): `(success, msg, archivos)` from `descargar_todos_reportes`. -/
  descargarPdfs : Except String (Bool × String × List String)
  /-- `ReportWorkflow._copiar_archivos` outcome (catches internally):
  `(success, msg, archivos_copiados)`. -/
  copiarArchivos : Bool × String × List String
  /-- `DEADWHClient.enviar_reportes es_prueba reporte` (never raises). -/
  enviarReportes : Nat → Nat → Bool × String
  /-- `get_config().validate_jira()`: is_valid and the error list. -/
  jiraValid : Bool
  jiraErrors : List String
  /-- raw Jira `client.create_issue` (incl. connection): issue key or raise. -/
  createIssue : Except String String
  /-- raw `sp_send_dbmail` outcome for the error alert. -/
  alertaRaw : Except String Unit
  /-- raw `sp_send_dbmail` outcome for the success summary. -/
  resumenRaw : Except String Unit
  /-- the `on_step_complete` observer callback (may raise), indexed by the
  number of previously recorded steps of the run. -/
  observer : Nat → StepResult → Except String Unit

/-- The StepResult `_execute_step` builds from the operation outcome: a
returned triple is recorded unchanged (`detalles or {}`), a raised error
becomes `success=False, mensaje=str(e), detalles={}`. -/
def stepResultOf (nombre : String)
    (func : Except String (Bool × String × Option Detalles)) : StepResult :=
  match func with
  | Except.ok (success, mensaje, detalles) =>
      { nombre := nombre, success := success, mensaje := mensaje,
        duracion := 0, detalles := detalles.getD {} }
  | Except.error e =>
      { nombre := nombre, success := false, mensaje := e,
        duracion := 0, detalles := {} }

/-- Append a finished step to the run: `self.steps.append(result)` plus the
observer-call event (the callback itself is invoked right after). -/
def stepAppend (st : WState) (r : StepResult) : WState :=
  { st with steps := st.steps ++ [r],
            events := st.events ++ [Event.observerCall r] }

/-- `ReportWorkflow._execute_step`: run the operation, convert a raise into
a failed StepResult, append the result, then invoke the observer callback
(unguarded — a raising observer propagates, after the append). -/
def _execute_step (env : Env) (st : WState) (nombre : String)
    (func : Except String (Bool × String × Option Detalles)) :
    RunOut StepResult :=
  let result := stepResultOf nombre func
  let st2 := stepAppend st result
  match env.observer st.steps.length result with
  | Except.ok _ => RunOut.ok result st2
  | Except.error e => RunOut.raised e st2

/-- `JiraClient.crear_ticket_error`: config check first (no ticket when the
Jira config is incomplete), then the ticket creation with every exception
caught — `(success, message, issue_key)`.  `titulo`/`descripcion` flow only
into the ticket text, not into the outcome. -/
def crear_ticket_error (jiraValid : Bool) (jiraErrors : List String)
    (createIssue : Except String String) (titulo descripcion : String) :
    Bool × String × Option String :=
  if !jiraValid then
    (false, "Configuración de Jira incompleta: " ++
      String.intercalate ", " jiraErrors, none)
  else
    match createIssue with
    | Except.ok issue_key =>
        (true, "Ticket creado: " ++ issue_key, some issue_key)
    | Except.error e =>
        (false, "Error creando ticket en Jira: " ++ e, none)

/-- `Notifier._send_via_dbmail`: every exception is caught and converted to
`(False, str(e))`. -/
def _send_via_dbmail (raw : Except String Unit) : Bool × String :=
  match raw with
  | Except.ok _ => (true, "Email enviado exitosamente")
  | Except.error e => (false, e)

/-- `Notifier.enviar_alerta_error`: pure HTML/body construction followed by
`_send_via_dbmail` (so it never raises for any raw mail outcome). -/
def enviar_alerta_error (raw : Except String Unit) (titulo mensaje : String)
    (ticket_jira : Option String) : Bool × String :=
  _send_via_dbmail raw

/-- `ReportWorkflow._handle_error`: always attempt a Jira ticket; on success
store the key in `self.ticket_jira`; always send the error alert with the
current `self.ticket_jira` (possibly stale or none). -/
def _handle_error (env : Env) (st : WState) (paso_fallido error : String) :
    WState :=
  let titulo := "[AUTO] Error en Reportes MP: " ++ paso_fallido
  let (success, _msg, ticket_key) :=
    crear_ticket_error env.jiraValid env.jiraErrors env.createIssue
      titulo error
  let st2 := { st with events := st.events ++ [Event.ticketAttempt titulo error] }
  let st3 := if success then { st2 with ticket_jira := ticket_key } else st2
  let _alert := enviar_alerta_error env.alertaRaw
      ("Error en: " ++ paso_fallido) error st3.ticket_jira
  { st3 with events := st3.events ++
      [Event.alerta ("Error en: " ++ paso_fallido) error st3.ticket_jira] }

/-- `ReportWorkflow._wrap_validacion` applied to the (possibly raising)
`validar_extracto` call inside the step lambda; the timezone rendering of
`last_updated` is abstracted to the timestamp itself. -/
def _wrap_validacion (r : Except String (Bool × String × Option Nat)) :
    Except String (Bool × String × Option Detalles) :=
  match r with
  | Except.error e => Except.error e
  | Except.ok (is_valid, message, last_updated) =>
      match last_updated with
      | some t => Except.ok (is_valid, message, some { last_updated := some t })
      | none => Except.ok (is_valid, message, some {})

/-- step lambda `lambda: (*tableau.refresh_extracto(), {})`. -/
def refresh_step_func (r : Except String (Bool × String)) :
    Except String (Bool × String × Option Detalles) :=
  match r with
  | Except.error e => Except.error e
  | Except.ok (s, m) => Except.ok (s, m, some {})

/-- `ReportWorkflow._validar_inventario`: no differences is a success with
empty detalles; differences are a failure carrying the flag and actions;
a raise from `validar_inventario` propagates. -/
def _validar_inventario (r : Except String (Bool × String × List Accion)) :
    Except String (Bool × String × Option Detalles) :=
  match r with
  | Except.error e => Except.error e
  | Except.ok (hay_diferencias, mensaje, acciones) =>
      if !hay_diferencias then Except.ok (true, mensaje, some {})
      else Except.ok (false, mensaje,
        some { hay_diferencias := true, acciones := acciones })

/-- one `if accion: success, msg = client.execute_job(accion); if not
success: errores.append(f"{accion}: {msg}")` block of
`_ejecutar_jobs_correctivos`, threading the call index and the accumulated
`errores`; an empty job name (missing key, falsy) is skipped. -/
def tryJob (executeJob : Nat → String → Bool × String) (k : Nat)
    (errores : List String) (name : String) : Nat × List String :=
  if name ≠ "" then
    let (success, msg) := executeJob k name
    (k + 1, if success then errores else errores ++ [name ++ ": " ++ msg])
  else (k, errores)

/-- the `for accion in acciones:` loop of `_ejecutar_jobs_correctivos`:
for each action, first Accion1 then Accion2, never short-circuiting. -/
def jobs_loop (executeJob : Nat → String → Bool × String) :
    List Accion → Nat → List String → Nat × List String
  | [], k, errores => (k, errores)
  | accion :: rest, k, errores =>
      let p1 := tryJob executeJob k errores accion.accion1
      let p2 := tryJob executeJob p1.1 p1.2 accion.accion2
      jobs_loop executeJob rest p2.1 p2.2

/-- `ReportWorkflow._ejecutar_jobs_correctivos`: run every action's jobs,
then fail iff any error accumulated, joining them with `; `. -/
def _ejecutar_jobs_correctivos (executeJob : Nat → String → Bool × String)
    (acciones : List Accion) : Bool × String × Option Detalles :=
  let errores := (jobs_loop executeJob acciones 0 []).2
  if !errores.isEmpty then
    (false, "Errores en jobs: " ++ String.intercalate "; " errores, some {})
  else
    (true, toString acciones.length ++ " ubicaciones corregidas", some {})

/-- `ReportWorkflow._descargar_pdfs`: os cleanup plus download, returning
`detalles = {'archivos': archivos}`; a raise propagates (no local catch). -/
def _descargar_pdfs (r : Except String (Bool × String × List String)) :
    Except String (Bool × String × Option Detalles) :=
  match r with
  | Except.error e => Except.error e
  | Except.ok (success, msg, archivos) =>
      Except.ok (success, msg, some { archivos := archivos })

/-- `ReportWorkflow._copiar_archivos`: catches internally; success carries
`{'archivos': copiados}`, every failure branch carries `{}`. -/
def _copiar_archivos (r : Bool × String × List String) :
    Bool × String × Option Detalles :=
  let (success, msg, archivos) := r
  if success then (success, msg, some { archivos := archivos })
  else (success, msg, some {})

/-- rendering of the elapsed-seconds suffix of success messages (wall-clock
time abstracted to 0). -/
def fmtSecs : String := toString (0 : Nat) ++ "s"

/-- `ReportWorkflow.run_validation_only`: freshness check; on failure one
refresh then a recheck.  No escalation of any kind in this flow; the
TableauClient context manager absorbs connect/disconnect failures and is
effect-free in the model. -/
def run_validation_only (env : Env) (now : Nat) (st0 : WState) :
    RunOut (Bool × String) :=
  let st := { st0 with startTime := some now, steps := [] }
  match _execute_step env st "Validar Extracto Tableau"
      (_wrap_validacion (env.validarExtracto 0)) with
  | RunOut.raised e st => RunOut.raised e st
  | RunOut.ok result st =>
    if result.success then RunOut.ok (true, result.mensaje) st
    else
      match _execute_step env st "Refresh Extracto"
          (refresh_step_func env.refreshExtracto) with
      | RunOut.raised e st => RunOut.raised e st
      | RunOut.ok result st =>
        if result.success then
          match _execute_step env st "Revalidar Extracto"
              (_wrap_validacion (env.validarExtracto 1)) with
          | RunOut.raised e st => RunOut.raised e st
          | RunOut.ok result st => RunOut.ok (result.success, result.mensaje) st
        else RunOut.ok (false, result.mensaje) st

/-- body of the `try:` block of `run_send_only`. -/
def run_send_only_body (env : Env) (es_prueba reporte : Nat) (st : WState) :
    RunOut (Bool × String) :=
  match _execute_step env st "Enviar Correos"
      (Except.ok (let (s, m) := env.enviarReportes es_prueba reporte
                  (s, m, some {}))) with
  | RunOut.raised e st => RunOut.raised e st
  | RunOut.ok result st =>
    if !result.success then
      let st := _handle_error env st "Envío de Correos" result.mensaje
      RunOut.ok (false, result.mensaje) st
    else
      let st := { st with events := st.events ++ [Event.resumen true] }
      RunOut.ok (true, "Correos enviados exitosamente en " ++ fmtSecs) st

/-- `ReportWorkflow.run_send_only`: resets `steps` and `start_time` only
(NOT `ticket_jira`), then the guarded body; the outer `except` escalates
"Error Inesperado" and returns `(False, str(e))`. -/
def run_send_only (env : Env) (es_prueba reporte : Nat) (now : Nat)
    (st0 : WState) : RunOut (Bool × String) :=
  let st := { st0 with startTime := some now, steps := [] }
  match run_send_only_body env es_prueba reporte st with
  | RunOut.ok v st => RunOut.ok v st
  | RunOut.raised e st =>
      RunOut.ok (false, e) (_handle_error env st "Error Inesperado" e)

/-- PASO 1 of `run_full`: validate the extract, on failure refresh and
revalidate.  `.ok none` means fall through to PASO 2; `.ok (some v)` is a
terminal verdict of the run. -/
def run_full_paso1 (env : Env) (st : WState) :
    RunOut (Option (Bool × String)) :=
  match _execute_step env st "1. Validar Extracto Tableau"
      (_wrap_validacion (env.validarExtracto 0)) with
  | RunOut.raised e st => RunOut.raised e st
  | RunOut.ok result st =>
    if result.success then RunOut.ok none st
    else
      match _execute_step env st "1.1 Refresh Extracto"
          (refresh_step_func env.refreshExtracto) with
      | RunOut.raised e st => RunOut.raised e st
      | RunOut.ok result st =>
        if !result.success then
          let st := _handle_error env st "Refresh de Extracto" result.mensaje
          RunOut.ok (some (false, "Error en extracto: " ++ result.mensaje)) st
        else
          match _execute_step env st "1.2 Revalidar Extracto"
              (_wrap_validacion (env.validarExtracto 1)) with
          | RunOut.raised e st => RunOut.raised e st
          | RunOut.ok result st =>
            if !result.success then
              let st := _handle_error env st "Validación post-refresh"
                  result.mensaje
              RunOut.ok (some (false,
                "Extracto sigue desactualizado: " ++ result.mensaje)) st
            else RunOut.ok none st

/-- PASO 2 of `run_full`: SQL inventory validation; ONLY when the step
failed AND its detalles carry a truthy `hay_diferencias` does the
corrective sub-branch (jobs, then cube) run — otherwise fall through. -/
def run_full_paso2 (env : Env) (st : WState) :
    RunOut (Option (Bool × String)) :=
  match _execute_step env st "2. Validar Inventario SQL"
      (_validar_inventario env.validarInventario) with
  | RunOut.raised e st => RunOut.raised e st
  | RunOut.ok result st =>
    if !result.success && result.detalles.hay_diferencias then
      let acciones := result.detalles.acciones
      match _execute_step env st "2.1 Ejecutar Jobs Correctivos"
          (Except.ok (_ejecutar_jobs_correctivos env.executeJob acciones)) with
      | RunOut.raised e st => RunOut.raised e st
      | RunOut.ok result st =>
        if !result.success then
          let st := _handle_error env st "Jobs Correctivos" result.mensaje
          RunOut.ok (some (false,
            "Error en jobs correctivos: " ++ result.mensaje)) st
        else
          match _execute_step env st "2.2 Actualizar Cubo"
              (Except.ok (let (s, m) := env.jobInventario
                          (s, m, some {}))) with
          | RunOut.raised e st => RunOut.raised e st
          | RunOut.ok result st =>
            if !result.success then
              let st := _handle_error env st "Actualización de Cubo"
                  result.mensaje
              RunOut.ok (some (false,
                "Error actualizando cubo: " ++ result.mensaje)) st
            else RunOut.ok none st
    else RunOut.ok none st

/-- PASO 3 of `run_full`: download the PDFs (the downloaded-file list read
from the detalles is not used by any later step). -/
def run_full_paso3 (env : Env) (st : WState) :
    RunOut (Option (Bool × String)) :=
  match _execute_step env st "3. Descargar PDFs"
      (_descargar_pdfs env.descargarPdfs) with
  | RunOut.raised e st => RunOut.raised e st
  | RunOut.ok result st =>
    if !result.success then
      let st := _handle_error env st "Descarga de PDFs" result.mensaje
      RunOut.ok (some (false, "Error descargando PDFs: " ++ result.mensaje)) st
    else RunOut.ok none st

/-- PASO 4 of `run_full`: copy the PDFs to the shared folder. -/
def run_full_paso4 (env : Env) (st : WState) :
    RunOut (Option (Bool × String)) :=
  match _execute_step env st "4. Copiar a DEADWH"
      (Except.ok (_copiar_archivos env.copiarArchivos)) with
  | RunOut.raised e st => RunOut.raised e st
  | RunOut.ok result st =>
    if !result.success then
      let st := _handle_error env st "Copia de Archivos" result.mensaje
      RunOut.ok (some (false, "Error copiando archivos: " ++ result.mensaje)) st
    else RunOut.ok none st

/-- PASO 5 of `run_full`: run the mail-sending stored procedure with the
official flag and the all-reports selector. -/
def run_full_paso5 (env : Env) (st : WState) :
    RunOut (Option (Bool × String)) :=
  match _execute_step env st "5. Enviar Correos"
      (Except.ok (let (s, m) := env.enviarReportes 0 0
                  (s, m, some {}))) with
  | RunOut.raised e st => RunOut.raised e st
  | RunOut.ok result st =>
    if !result.success then
      let st := _handle_error env st "Envío de Correos" result.mensaje
      RunOut.ok (some (false, "Error enviando correos: " ++ result.mensaje)) st
    else RunOut.ok none st

/-- tail of the `run_full` body from PASO 5 on: the mail gate, then the
success-summary notification and the success verdict. -/
def run_full_tail5 (env : Env) (st : WState) : RunOut (Bool × String) :=
  match run_full_paso5 env st with
  | RunOut.raised e st => RunOut.raised e st
  | RunOut.ok (some v) st => RunOut.ok v st
  | RunOut.ok none st =>
    let st := { st with events := st.events ++ [Event.resumen true] }
    RunOut.ok (true, "Proceso completado en " ++ fmtSecs) st

/-- tail of the `run_full` body from PASO 4 on. -/
def run_full_tail4 (env : Env) (st : WState) : RunOut (Bool × String) :=
  match run_full_paso4 env st with
  | RunOut.raised e st => RunOut.raised e st
  | RunOut.ok (some v) st => RunOut.ok v st
  | RunOut.ok none st => run_full_tail5 env st

/-- tail of the `run_full` body from PASO 3 on. -/
def run_full_tail3 (env : Env) (st : WState) : RunOut (Bool × String) :=
  match run_full_paso3 env st with
  | RunOut.raised e st => RunOut.raised e st
  | RunOut.ok (some v) st => RunOut.ok v st
  | RunOut.ok none st => run_full_tail4 env st

/-- tail of the `run_full` body from PASO 2 on. -/
def run_full_tail2 (env : Env) (st : WState) : RunOut (Bool × String) :=
  match run_full_paso2 env st with
  | RunOut.raised e st => RunOut.raised e st
  | RunOut.ok (some v) st => RunOut.ok v st
  | RunOut.ok none st => run_full_tail3 env st

/-- body of the `try:` block of `run_full`: the five gates in order, then
the success summary notification and the success verdict. -/
def run_full_body (env : Env) (st : WState) : RunOut (Bool × String) :=
  match run_full_paso1 env st with
  | RunOut.raised e st => RunOut.raised e st
  | RunOut.ok (some v) st => RunOut.ok v st
  | RunOut.ok none st => run_full_tail2 env st

/-- `ReportWorkflow.run_full`: reset `start_time`, `steps` AND
`ticket_jira`, run the pipeline; the outer `except` escalates
"Error Inesperado" and returns `(False, str(e))`. -/
def run_full (env : Env) (now : Nat) (st0 : WState) : RunOut (Bool × String) :=
  let st := { st0 with startTime := some now, steps := [], ticket_jira := none }
  match run_full_body env st with
  | RunOut.ok v st => RunOut.ok v st
  | RunOut.raised e st =>
      RunOut.ok (false, e) (_handle_error env st "Error Inesperado" e)

/-- number of iterations of a `while total_waited < max_wait` loop that
adds `check_interval` to `total_waited` each pass. -/
def numPolls (max_wait check_interval : Nat) : Nat :=
  (max_wait + check_interval - 1) / check_interval

/-- poll-wait loop of `TableauClient.refresh_extracto`: each pass sleeps,
re-fetches the job (`poll k` gives `(finish_code, notes)` or raises, the
raise being caught by the surrounding `except` as `(False, str(e))`),
returns on finish_code 0/1/2, and times out when the fuel (the remaining
iterations of the bounded while) is exhausted. -/
def refresh_wait (poll : Nat → Except String (Int × String))
    (max_wait_seconds : Nat) : Nat → Nat → Bool × String
  | _, 0 => (false, "Timeout después de " ++ toString max_wait_seconds ++ "s")
  | k, fuel + 1 =>
    match poll k with
    | Except.error e => (false, e)
    | Except.ok (finish_code, notes) =>
      if finish_code = 0 then (true, "Refresh completado")
      else if finish_code = 1 then (false, "Refresh falló: " ++ notes)
      else if finish_code = 2 then (false, "Refresh cancelado")
      else refresh_wait poll max_wait_seconds (k + 1) fuel

/-- `TableauClient.refresh_extracto`: datasource lookup, refresh-job start
(`startRefresh` raise caught as `(False, str(e))`), then the bounded
poll-wait with `wait_interval = 10`. -/
def refresh_extracto (dsFound : Bool) (ds_name : String)
    (startRefresh : Except String Unit)
    (poll : Nat → Except String (Int × String))
    (max_wait_seconds : Nat) : Bool × String :=
  if !dsFound then (false, "Datasource " ++ ds_name ++ " no encontrado")
  else
    match startRefresh with
    | Except.error e => (false, e)
    | Except.ok _ => refresh_wait poll max_wait_seconds 0
        (numPolls max_wait_seconds 10)

/-- poll-wait loop of `SQLClient.execute_job`: each pass sleeps and queries
the job status (`poll k` is `none` for an empty result set, `some status`
otherwise, or raises — caught as `(False, str(e))`); only the status string
"Completed" is terminal, everything else keeps polling until the bounded
while runs out. -/
def execute_job_wait (poll : Nat → Except String (Option String))
    (max_wait : Nat) : Nat → Nat → Bool × String
  | _, 0 => (false, "Timeout esperando job después de " ++
      toString max_wait ++ "s")
  | k, fuel + 1 =>
    match poll k with
    | Except.error e => (false, e)
    | Except.ok none => execute_job_wait poll max_wait (k + 1) fuel
    | Except.ok (some status) =>
      if status = "Completed" then (true, "Job completado exitosamente")
      else execute_job_wait poll max_wait (k + 1) fuel

/-- `SQLClient.execute_job`: start the agent job (raise caught), optionally
return without waiting, else the bounded poll-wait. -/
def execute_job (startJob : Except String Unit)
    (poll : Nat → Except String (Option String))
    (wait_for_completion : Bool) (check_interval max_wait : Nat) :
    Bool × String :=
  match startJob with
  | Except.error e => (false, e)
  | Except.ok _ =>
    if !wait_for_completion then (true, "Job iniciado (sin esperar)")
    else execute_job_wait poll max_wait 0 (numPolls max_wait check_interval)

/-
Predicates and helper lemmas used by the claim theorems.
-/

/-- The gate steps of `run_full` whose failure the code answers with
escalation and an immediate terminal return.  ("1. Validar Extracto
Tableau" failing branches into refresh instead, and "2. Validar Inventario
SQL" failing branches into the corrective sub-pipeline or falls through.) -/
def TerminalGates : List String :=
  ["1.1 Refresh Extracto", "1.2 Revalidar Extracto",
   "2.1 Ejecutar Jobs Correctivos", "2.2 Actualizar Cubo",
   "3. Descargar PDFs", "4. Copiar a DEADWH", "5. Enviar Correos"]

/-- a recorded step that is a failed terminal gate. -/
def failedTerminal (r : StepResult) : Bool :=
  TerminalGates.contains r.nombre && !r.success

/-- no step of the list is a failed terminal gate. -/
def cleanSteps (l : List StepResult) : Prop :=
  ∀ r ∈ l, failedTerminal r = false

instance (l : List StepResult) : Decidable (cleanSteps l) := by
  unfold cleanSteps; infer_instance

def isTicketAttempt : Event → Bool
  | Event.ticketAttempt _ _ => true
  | _ => false

def isAlerta : Event → Bool
  | Event.alerta _ _ _ => true
  | _ => false

def isObserverCall : Event → Bool
  | Event.observerCall _ => true
  | _ => false

/-- number of Jira ticket-creation attempts recorded in a trace. -/
def ticketCount (l : List Event) : Nat := l.countP isTicketAttempt

/-- number of error-alert mails recorded in a trace. -/
def alertCount (l : List Event) : Nat := l.countP isAlerta

/-- the value of `self.ticket_jira` after one `_handle_error` call: the key
of a successfully created ticket, else the previous value (a failed
creation never clears or overwrites the stored identifier). -/
def ticketAfter (env : Env) (t : Option String) : Option String :=
  match crear_ticket_error env.jiraValid env.jiraErrors env.createIssue "" "" with
  | (true, _, key) => key
  | (false, _, _) => t

def paso1Names : List String :=
  ["1. Validar Extracto Tableau", "1.1 Refresh Extracto",
   "1.2 Revalidar Extracto"]

def paso2Names : List String :=
  ["2. Validar Inventario SQL", "2.1 Ejecutar Jobs Correctivos",
   "2.2 Actualizar Cubo"]

def paso3Names : List String := ["3. Descargar PDFs"]

def paso4Names : List String := ["4. Copiar a DEADWH"]

def paso5Names : List String := ["5. Enviar Correos"]

/-- invariant of one `run_full` phase: fall-through leaves the ticket and
start time alone, appends only clean (not failed-terminal-gate) steps of
the phase's names, and escalates nothing; a terminal verdict is a failure
whose appended steps are clean except possibly the last one and which
escalated exactly once (one ticket attempt, one alert); a raised observer
error leaves escalation to the caller. -/
def phaseInv (env : Env) (names : List String) (st : WState)
    (out : RunOut (Option (Bool × String))) : Prop :=
  match out with
  | RunOut.ok none st' =>
      st'.ticket_jira = st.ticket_jira ∧ st'.startTime = st.startTime ∧
      ∃ Δ E, st'.steps = st.steps ++ Δ ∧ st'.events = st.events ++ E ∧
        (∀ r ∈ Δ, r.nombre ∈ names) ∧ cleanSteps Δ ∧
        ticketCount E = 0 ∧ alertCount E = 0
  | RunOut.ok (some v) st' =>
      v.1 = false ∧ st'.startTime = st.startTime ∧
      st'.ticket_jira = ticketAfter env st.ticket_jira ∧
      ∃ Δ E, st'.steps = st.steps ++ Δ ∧ st'.events = st.events ++ E ∧
        (∀ r ∈ Δ, r.nombre ∈ names) ∧ cleanSteps Δ.dropLast ∧
        ticketCount E = 1 ∧ alertCount E = 1
  | RunOut.raised _ st' =>
      st'.ticket_jira = st.ticket_jira ∧ st'.startTime = st.startTime ∧
      ∃ Δ E, st'.steps = st.steps ++ Δ ∧ st'.events = st.events ++ E ∧
        (∀ r ∈ Δ, r.nombre ∈ names) ∧ cleanSteps Δ.dropLast ∧
        ticketCount E = 0 ∧ alertCount E = 0

/-- facts that hold between the gates of a `run_full` that has not failed
yet: no ticket, start time set, only clean steps, no escalation events. -/
def midState (st0 : WState) (now : Nat) (stM : WState) (Eacc : List Event) :
    Prop :=
  stM.ticket_jira = none ∧ stM.startTime = some now ∧
  cleanSteps stM.steps ∧ stM.events = st0.events ++ Eacc ∧
  ticketCount Eacc = 0 ∧ alertCount Eacc = 0

/-- what `run_full` guarantees about its verdict `v` and final state. -/
def masterPost (env : Env) (st0 : WState) (now : Nat) (v : Bool)
    (stF : WState) : Prop :=
  stF.startTime = some now ∧
  (stF.ticket_jira = none ∨ stF.ticket_jira = ticketAfter env none) ∧
  ∃ E, stF.events = st0.events ++ E ∧
    cleanSteps stF.steps.dropLast ∧
    ticketCount E ≤ 1 ∧ alertCount E ≤ 1 ∧
    ((∃ r ∈ stF.steps, failedTerminal r = true) →
      v = false ∧ ticketCount E = 1 ∧ alertCount E = 1) ∧
    (v = false → ticketCount E = 1 ∧ alertCount E = 1)

/-- collaborator behaviour in which every external call succeeds. -/
def envOk : Env :=
  { validarExtracto := fun _ => Except.ok (true, "Extracto válido: 2.00h", some 0),
    refreshExtracto := Except.ok (true, "Refresh completado"),
    validarInventario := Except.ok
      (false, "No hay diferencias contra el origen", []),
    executeJob := fun _ _ => (true, "Job completado exitosamente"),
    jobInventario := (true, "Job completado exitosamente"),
    descargarPdfs := Except.ok (true, "6 reportes descargados", ["r.pdf"]),
    copiarArchivos := (true, "1 archivos copiados", ["r.pdf"]),
    enviarReportes := fun _ _ => (true, "Reportes enviados exitosamente"),
    jiraValid := true, jiraErrors := [], createIssue := Except.ok "DDF-123",
    alertaRaw := Except.ok (), resumenRaw := Except.ok (),
    observer := fun _ _ => Except.ok () }

/-- behaviour in which the SQL inventory validation raises (connection
error) while everything else succeeds. -/
def envInvRaise : Env :=
  { envOk with validarInventario := Except.error "SQL connection failed" }

/-- behaviour in which the extract is stale and the refresh is cancelled. -/
def envRefreshFail : Env :=
  { envOk with
    validarExtracto := fun _ =>
      Except.ok (false, "Extracto desactualizado: 30.00h (máximo: 24h)", some 0),
    refreshExtracto := Except.ok (false, "Refresh cancelado") }

/-- behaviour in which the observer callback raises on every step. -/
def envObsRaise : Env :=
  { envOk with observer := fun _ _ => Except.error "observer failure" }

/-- behaviour in which the mail-sending SP fails and the Jira ticket
creation raises too. -/
def envSendFail : Env :=
  { envOk with
    enviarReportes := fun _ _ => (false, "SP de envío falló"),
    createIssue := Except.error "jira down" }

/-- a workflow instance that kept a ticket identifier from an earlier run. -/
def stWithTicket : WState :=
  { initState with ticket_jira := some "DDF-99" }

/-- the job names a corrective-actions list asks for, in execution order:
for each action (in list order) its non-empty Accion1 then its non-empty
Accion2.  This is the order §4.5 of the spec prescribes. -/
def attemptsOf : List Accion → List String
  | [] => []
  | a :: rest =>
      ((if a.accion1 ≠ "" then [a.accion1] else []) ++
       (if a.accion2 ≠ "" then [a.accion2] else [])) ++ attemptsOf rest

/-- the error texts a sequence of job attempts accumulates: one entry
`name: msg` per failed attempt, every attempt consulted (no
short-circuit), call indices consecutive. -/
def erroresOf (executeJob : Nat → String → Bool × String) :
    Nat → List String → List String
  | _, [] => []
  | k, n :: rest =>
      (if (executeJob k n).1 then [] else [n ++ ": " ++ (executeJob k n).2]) ++
      erroresOf executeJob (k + 1) rest

/-- a refresh-job poll answer that keeps the loop waiting: a finish_code
other than 0 (done), 1 (failed) or 2 (cancelled). -/
def nonterminalPoll (poll : Nat → Except String (Int × String)) (i : Nat) :
    Prop :=
  ∃ c s, poll i = Except.ok (c, s) ∧ c ≠ 0 ∧ c ≠ 1 ∧ c ≠ 2

/-- an agent-job poll answer that keeps the loop waiting: an empty result
set or any status other than "Completed". -/
def nonCompletedPoll (poll : Nat → Except String (Option String)) (i : Nat) :
    Prop :=
  poll i = Except.ok none ∨
  ∃ s, poll i = Except.ok (some s) ∧ s ≠ "Completed"



theorem stepResultOf_nombre (n : String)
    (f : Except String (Bool × String × Option Detalles)) :
    (stepResultOf n f).nombre = n := by
  cases f with
  | ok v => obtain ⟨s, m, d⟩ := v; rfl
  | error e => rfl

theorem stepAppend_steps (st : WState) (r : StepResult) :
    (stepAppend st r).steps = st.steps ++ [r] := rfl

theorem stepAppend_events (st : WState) (r : StepResult) :
    (stepAppend st r).events = st.events ++ [Event.observerCall r] := rfl

theorem stepAppend_ticket (st : WState) (r : StepResult) :
    (stepAppend st r).ticket_jira = st.ticket_jira := rfl

theorem stepAppend_startTime (st : WState) (r : StepResult) :
    (stepAppend st r).startTime = st.startTime := rfl

/-- full characterisation of `_handle_error`: steps and start time are
untouched, the ticket is updated exactly by `ticketAfter`, and precisely
one ticket-creation attempt followed by one alert (carrying the then
current ticket reference) are recorded — for EVERY collaborator behaviour,
including a raising `createIssue` and a raising `sp_send_dbmail`. -/
theorem handle_error_spec (env : Env) (st : WState) (p e : String) :
    (_handle_error env st p e).steps = st.steps ∧
    (_handle_error env st p e).startTime = st.startTime ∧
    (_handle_error env st p e).ticket_jira = ticketAfter env st.ticket_jira ∧
    (_handle_error env st p e).events = st.events ++
      [Event.ticketAttempt ("[AUTO] Error en Reportes MP: " ++ p) e,
       Event.alerta ("Error en: " ++ p) e (ticketAfter env st.ticket_jira)] := by
  unfold _handle_error ticketAfter crear_ticket_error
  cases hv : env.jiraValid with
  | false => simp
  | true => cases hc : env.createIssue with
    | ok k => simp
    | error er => simp

/-- `_execute_step` either returns the recorded StepResult or re-raises the
observer error; in both cases the state is `stepAppend` of the result. -/
theorem execute_step_cases (env : Env) (st : WState) (n : String)
    (f : Except String (Bool × String × Option Detalles)) :
    (_execute_step env st n f =
        RunOut.ok (stepResultOf n f) (stepAppend st (stepResultOf n f))) ∨
    (∃ e, _execute_step env st n f =
        RunOut.raised e (stepAppend st (stepResultOf n f)) ∧
      env.observer st.steps.length (stepResultOf n f) = Except.error e) := by
  unfold _execute_step
  cases ho : env.observer st.steps.length (stepResultOf n f) with
  | ok u => left; simp only [ho]
  | error e => right; refine ⟨e, by simp only [ho], rfl⟩

theorem mem_of_mem_dropLast {α : Type} {a : α} :
    ∀ {l : List α}, a ∈ l.dropLast → a ∈ l
  | [], h => by simp at h
  | [_], h => by simp [List.dropLast] at h
  | x :: y :: l, h => by
      rw [List.dropLast_cons₂] at h
      rcases List.mem_cons.mp h with h | h
      · exact h ▸ List.mem_cons_self x _
      · exact List.mem_cons_of_mem x (mem_of_mem_dropLast h)

theorem cleanSteps_nil : cleanSteps [] := by
  intro r hr; simp at hr

theorem cleanSteps_of_dropLast_append {l1 l2 : List StepResult}
    (h1 : cleanSteps l1) (h2 : cleanSteps l2.dropLast) :
    cleanSteps (l1 ++ l2).dropLast := by
  intro r hr
  have hr' := mem_of_mem_dropLast hr
  rcases List.mem_append.mp hr' with h | h
  · exact h1 r h
  · -- r is in l2; if it is not the last element of l1 ++ l2 it is in
    -- l2.dropLast
    rcases List.eq_nil_or_concat l2 with rfl | ⟨l2', b, rfl⟩
    · simp at h
    · rw [List.concat_eq_append, ← List.append_assoc, List.dropLast_concat] at hr
      rcases List.mem_append.mp hr with hh | hh
      · exact h1 r hh
      · exact h2 r (by simpa [List.concat_eq_append, List.dropLast_concat] using hh)

theorem cleanSteps_append {l1 l2 : List StepResult}
    (h1 : cleanSteps l1) (h2 : cleanSteps l2) : cleanSteps (l1 ++ l2) := by
  intro r hr
  rcases List.mem_append.mp hr with h | h
  · exact h1 r h
  · exact h2 r h

theorem cleanSteps_dropLast_of_clean {l : List StepResult}
    (h : cleanSteps l) : cleanSteps l.dropLast :=
  fun r hr => h r (mem_of_mem_dropLast hr)

theorem phaseInv_cont (env : Env) (names : List String) (st st' : WState)
    (Δ : List StepResult) (E : List Event)
    (h1 : st'.ticket_jira = st.ticket_jira) (h2 : st'.startTime = st.startTime)
    (h3 : st'.steps = st.steps ++ Δ) (h4 : st'.events = st.events ++ E)
    (h5 : ∀ r ∈ Δ, r.nombre ∈ names) (h6 : cleanSteps Δ)
    (h7 : ticketCount E = 0) (h8 : alertCount E = 0) :
    phaseInv env names st (RunOut.ok none st') :=
  ⟨h1, h2, Δ, E, h3, h4, h5, h6, h7, h8⟩

theorem phaseInv_term (env : Env) (names : List String) (st st' : WState)
    (msg : String) (Δ : List StepResult) (E : List Event)
    (h2 : st'.startTime = st.startTime)
    (h1 : st'.ticket_jira = ticketAfter env st.ticket_jira)
    (h3 : st'.steps = st.steps ++ Δ) (h4 : st'.events = st.events ++ E)
    (h5 : ∀ r ∈ Δ, r.nombre ∈ names) (h6 : cleanSteps Δ.dropLast)
    (h7 : ticketCount E = 1) (h8 : alertCount E = 1) :
    phaseInv env names st (RunOut.ok (some (false, msg)) st') :=
  ⟨rfl, h2, h1, Δ, E, h3, h4, h5, h6, h7, h8⟩

theorem phaseInv_raised (env : Env) (names : List String) (st st' : WState)
    (e : String) (Δ : List StepResult) (E : List Event)
    (h1 : st'.ticket_jira = st.ticket_jira) (h2 : st'.startTime = st.startTime)
    (h3 : st'.steps = st.steps ++ Δ) (h4 : st'.events = st.events ++ E)
    (h5 : ∀ r ∈ Δ, r.nombre ∈ names) (h6 : cleanSteps Δ.dropLast)
    (h7 : ticketCount E = 0) (h8 : alertCount E = 0) :
    phaseInv env names st (RunOut.raised e st') :=
  ⟨h1, h2, Δ, E, h3, h4, h5, h6, h7, h8⟩

theorem paso3_inv (env : Env) (st : WState) :
    phaseInv env paso3Names st (run_full_paso3 env st) := by
  unfold run_full_paso3
  rcases execute_step_cases env st "3. Descargar PDFs"
      (_descargar_pdfs env.descargarPdfs) with h1 | ⟨e1, h1, _⟩
  · simp only [h1]
    set r1 := stepResultOf "3. Descargar PDFs" (_descargar_pdfs env.descargarPdfs)
      with hr1
    split
    · -- failed: escalate and stop
      next hfail =>
      have hs1 : r1.success = false := by
        cases hb : r1.success <;> simp [hb] at hfail ⊢
      obtain ⟨hs, ht, htk, hev⟩ := handle_error_spec env (stepAppend st r1)
        "Descarga de PDFs" r1.mensaje
      refine phaseInv_term env paso3Names st _ _ [r1]
        ([Event.observerCall r1] ++
         [Event.ticketAttempt ("[AUTO] Error en Reportes MP: " ++ "Descarga de PDFs") r1.mensaje,
          Event.alerta ("Error en: " ++ "Descarga de PDFs") r1.mensaje
            (ticketAfter env st.ticket_jira)])
        ht htk hs ?_ ?_ ?_ ?_ ?_
      · rw [hev]; simp [stepAppend_events, stepAppend_ticket, List.append_assoc]
      · intro r hr; simp at hr; subst hr
        rw [hr1, stepResultOf_nombre]; simp [paso3Names]
      · simp [cleanSteps]
      · simp [ticketCount, List.countP_cons, isTicketAttempt, List.countP_nil]
      · simp [alertCount, List.countP_cons, isAlerta, List.countP_nil]
    · -- succeeded: fall through
      next hsucc =>
      have hs1 : r1.success = true := by
        cases hb : r1.success <;> simp [hb] at hsucc ⊢
      refine phaseInv_cont env paso3Names st _ [r1] [Event.observerCall r1]
        rfl rfl rfl rfl ?_ ?_ ?_ ?_
      · intro r hr; simp at hr; subst hr
        rw [hr1, stepResultOf_nombre]; simp [paso3Names]
      · intro r hr; simp at hr; subst hr
        simp [failedTerminal, hs1]
      · simp [ticketCount, List.countP_cons, isTicketAttempt, List.countP_nil]
      · simp [alertCount, List.countP_cons, isAlerta, List.countP_nil]
  · simp only [h1]
    refine phaseInv_raised env paso3Names st _ e1
      [stepResultOf "3. Descargar PDFs" (_descargar_pdfs env.descargarPdfs)]
      [Event.observerCall (stepResultOf "3. Descargar PDFs" (_descargar_pdfs env.descargarPdfs))]
      rfl rfl rfl rfl ?_ ?_ ?_ ?_
    · intro r hr; simp at hr; subst hr
      rw [stepResultOf_nombre]; simp [paso3Names]
    · simp [cleanSteps]
    · simp [ticketCount, List.countP_cons, isTicketAttempt, List.countP_nil]
    · simp [alertCount, List.countP_cons, isAlerta, List.countP_nil]

theorem paso4_inv (env : Env) (st : WState) :
    phaseInv env paso4Names st (run_full_paso4 env st) := by
  unfold run_full_paso4
  rcases execute_step_cases env st "4. Copiar a DEADWH"
      (Except.ok (_copiar_archivos env.copiarArchivos)) with h1 | ⟨e1, h1, _⟩
  · simp only [h1]
    set r1 := stepResultOf "4. Copiar a DEADWH"
      (Except.ok (_copiar_archivos env.copiarArchivos)) with hr1
    split
    · next hfail =>
      have hs1 : r1.success = false := by
        cases hb : r1.success <;> simp [hb] at hfail ⊢
      obtain ⟨hs, ht, htk, hev⟩ := handle_error_spec env (stepAppend st r1)
        "Copia de Archivos" r1.mensaje
      refine phaseInv_term env paso4Names st _ _ [r1]
        ([Event.observerCall r1] ++
         [Event.ticketAttempt ("[AUTO] Error en Reportes MP: " ++ "Copia de Archivos") r1.mensaje,
          Event.alerta ("Error en: " ++ "Copia de Archivos") r1.mensaje
            (ticketAfter env st.ticket_jira)])
        ht htk hs ?_ ?_ ?_ ?_ ?_
      · rw [hev]; simp [stepAppend_events, stepAppend_ticket, List.append_assoc]
      · intro r hr; simp at hr; subst hr
        rw [hr1, stepResultOf_nombre]; simp [paso4Names]
      · simp [cleanSteps]
      · simp [ticketCount, List.countP_cons, isTicketAttempt, List.countP_nil]
      · simp [alertCount, List.countP_cons, isAlerta, List.countP_nil]
    · next hsucc =>
      have hs1 : r1.success = true := by
        cases hb : r1.success <;> simp [hb] at hsucc ⊢
      refine phaseInv_cont env paso4Names st _ [r1] [Event.observerCall r1]
        rfl rfl rfl rfl ?_ ?_ ?_ ?_
      · intro r hr; simp at hr; subst hr
        rw [hr1, stepResultOf_nombre]; simp [paso4Names]
      · intro r hr; simp at hr; subst hr
        simp [failedTerminal, hs1]
      · simp [ticketCount, List.countP_cons, isTicketAttempt, List.countP_nil]
      · simp [alertCount, List.countP_cons, isAlerta, List.countP_nil]
  · simp only [h1]
    refine phaseInv_raised env paso4Names st _ e1
      [stepResultOf "4. Copiar a DEADWH" (Except.ok (_copiar_archivos env.copiarArchivos))]
      [Event.observerCall (stepResultOf "4. Copiar a DEADWH" (Except.ok (_copiar_archivos env.copiarArchivos)))]
      rfl rfl rfl rfl ?_ ?_ ?_ ?_
    · intro r hr; simp at hr; subst hr
      rw [stepResultOf_nombre]; simp [paso4Names]
    · simp [cleanSteps]
    · simp [ticketCount, List.countP_cons, isTicketAttempt, List.countP_nil]
    · simp [alertCount, List.countP_cons, isAlerta, List.countP_nil]

theorem paso5_inv (env : Env) (st : WState) :
    phaseInv env paso5Names st (run_full_paso5 env st) := by
  unfold run_full_paso5
  rcases execute_step_cases env st "5. Enviar Correos"
      (Except.ok (let (s, m) := env.enviarReportes 0 0
                  (s, m, some {}))) with h1 | ⟨e1, h1, _⟩
  · simp only [h1]
    set r1 := stepResultOf "5. Enviar Correos"
      (Except.ok (let (s, m) := env.enviarReportes 0 0
                  (s, m, some {}))) with hr1
    split
    · next hfail =>
      have hs1 : r1.success = false := by
        cases hb : r1.success <;> simp [hb] at hfail ⊢
      obtain ⟨hs, ht, htk, hev⟩ := handle_error_spec env (stepAppend st r1)
        "Envío de Correos" r1.mensaje
      refine phaseInv_term env paso5Names st _ _ [r1]
        ([Event.observerCall r1] ++
         [Event.ticketAttempt ("[AUTO] Error en Reportes MP: " ++ "Envío de Correos") r1.mensaje,
          Event.alerta ("Error en: " ++ "Envío de Correos") r1.mensaje
            (ticketAfter env st.ticket_jira)])
        ht htk hs ?_ ?_ ?_ ?_ ?_
      · rw [hev]; simp [stepAppend_events, stepAppend_ticket, List.append_assoc]
      · intro r hr; simp at hr; subst hr
        rw [hr1, stepResultOf_nombre]; simp [paso5Names]
      · simp [cleanSteps]
      · simp [ticketCount, List.countP_cons, isTicketAttempt, List.countP_nil]
      · simp [alertCount, List.countP_cons, isAlerta, List.countP_nil]
    · next hsucc =>
      have hs1 : r1.success = true := by
        cases hb : r1.success <;> simp [hb] at hsucc ⊢
      refine phaseInv_cont env paso5Names st _ [r1] [Event.observerCall r1]
        rfl rfl rfl rfl ?_ ?_ ?_ ?_
      · intro r hr; simp at hr; subst hr
        rw [hr1, stepResultOf_nombre]; simp [paso5Names]
      · intro r hr; simp at hr; subst hr
        simp [failedTerminal, hs1]
      · simp [ticketCount, List.countP_cons, isTicketAttempt, List.countP_nil]
      · simp [alertCount, List.countP_cons, isAlerta, List.countP_nil]
  · simp only [h1]
    refine phaseInv_raised env paso5Names st _ e1
      [stepResultOf "5. Enviar Correos" (Except.ok (let (s, m) := env.enviarReportes 0 0
                  (s, m, some {})))]
      [Event.observerCall (stepResultOf "5. Enviar Correos" (Except.ok (let (s, m) := env.enviarReportes 0 0
                  (s, m, some {}))))]
      rfl rfl rfl rfl ?_ ?_ ?_ ?_
    · intro r hr; simp at hr; subst hr
      rw [stepResultOf_nombre]; simp [paso5Names]
    · simp [cleanSteps]
    · simp [ticketCount, List.countP_cons, isTicketAttempt, List.countP_nil]
    · simp [alertCount, List.countP_cons, isAlerta, List.countP_nil]

theorem contains_validar1 :
    TerminalGates.contains "1. Validar Extracto Tableau" = false := rfl

theorem contains_validar2 :
    TerminalGates.contains "2. Validar Inventario SQL" = false := rfl

theorem paso1_inv (env : Env) (st : WState) :
    phaseInv env paso1Names st (run_full_paso1 env st) := by
  unfold run_full_paso1
  set rA := stepResultOf "1. Validar Extracto Tableau"
    (_wrap_validacion (env.validarExtracto 0)) with hrA
  rcases execute_step_cases env st "1. Validar Extracto Tableau"
      (_wrap_validacion (env.validarExtracto 0)) with hA | ⟨eA, hA, _⟩
  case inr =>
    rw [← hrA] at hA
    simp only [hA]
    refine phaseInv_raised env paso1Names st _ eA [rA] [Event.observerCall rA]
      rfl rfl rfl rfl ?_ ?_ ?_ ?_
    · intro r hr; simp at hr; subst hr
      rw [hrA, stepResultOf_nombre]; simp [paso1Names]
    · simp [cleanSteps]
    · simp [ticketCount, List.countP_cons, isTicketAttempt, List.countP_nil]
    · simp [alertCount, List.countP_cons, isAlerta, List.countP_nil]
  rw [← hrA] at hA
  simp only [hA]
  split
  · -- extract valid: fall through
    next hsA =>
    refine phaseInv_cont env paso1Names st _ [rA] [Event.observerCall rA]
      rfl rfl rfl rfl ?_ ?_ ?_ ?_
    · intro r hr; simp at hr; subst hr
      rw [hrA, stepResultOf_nombre]; simp [paso1Names]
    · intro r hr; simp at hr; subst hr
      simp [failedTerminal, hsA]
    · simp [ticketCount, List.countP_cons, isTicketAttempt, List.countP_nil]
    · simp [alertCount, List.countP_cons, isAlerta, List.countP_nil]
  next hsA' =>
  have hsA : rA.success = false := by
    cases hb : rA.success <;> simp [hb] at hsA' ⊢
  have hnameA : rA.nombre = "1. Validar Extracto Tableau" := by
    rw [hrA, stepResultOf_nombre]
  have hcleanA : failedTerminal rA = false := by
    unfold failedTerminal
    rw [hnameA, contains_validar1, Bool.false_and]
  set rB := stepResultOf "1.1 Refresh Extracto"
    (refresh_step_func env.refreshExtracto) with hrB
  rcases execute_step_cases env (stepAppend st rA) "1.1 Refresh Extracto"
      (refresh_step_func env.refreshExtracto) with hB | ⟨eB, hB, _⟩
  case inr =>
    rw [← hrB] at hB
    simp only [hB]
    refine phaseInv_raised env paso1Names st _ eB [rA, rB]
      [Event.observerCall rA, Event.observerCall rB]
      rfl rfl ?_ ?_ ?_ ?_ ?_ ?_
    · simp [stepAppend_steps, List.append_assoc]
    · simp [stepAppend_events, List.append_assoc]
    · intro r hr; simp at hr
      rcases hr with rfl | rfl
      · rw [hrA, stepResultOf_nombre]; simp [paso1Names]
      · rw [hrB, stepResultOf_nombre]; simp [paso1Names]
    · intro r hr; simp [List.dropLast] at hr; subst hr; exact hcleanA
    · simp [ticketCount, List.countP_cons, isTicketAttempt, List.countP_nil]
    · simp [alertCount, List.countP_cons, isAlerta, List.countP_nil]
  rw [← hrB] at hB
  simp only [hB]
  split
  · -- refresh failed: escalate and stop
    next hfB =>
    have hsB : rB.success = false := by
      cases hb : rB.success <;> simp [hb] at hfB ⊢
    obtain ⟨hs, ht, htk, hev⟩ := handle_error_spec env
      (stepAppend (stepAppend st rA) rB) "Refresh de Extracto" rB.mensaje
    refine phaseInv_term env paso1Names st _ _ [rA, rB]
      [Event.observerCall rA, Event.observerCall rB,
       Event.ticketAttempt ("[AUTO] Error en Reportes MP: " ++ "Refresh de Extracto") rB.mensaje,
       Event.alerta ("Error en: " ++ "Refresh de Extracto") rB.mensaje
         (ticketAfter env st.ticket_jira)]
      ht htk ?_ ?_ ?_ ?_ ?_ ?_
    · rw [hs]; simp [stepAppend_steps, List.append_assoc]
    · rw [hev]; simp [stepAppend_events, stepAppend_ticket, List.append_assoc]
    · intro r hr; simp at hr
      rcases hr with rfl | rfl
      · rw [hrA, stepResultOf_nombre]; simp [paso1Names]
      · rw [hrB, stepResultOf_nombre]; simp [paso1Names]
    · intro r hr; simp [List.dropLast] at hr; subst hr; exact hcleanA
    · simp [ticketCount, List.countP_cons, isTicketAttempt, List.countP_nil]
    · simp [alertCount, List.countP_cons, isAlerta, List.countP_nil]
  next hfB' =>
  have hsB : rB.success = true := by
    cases hb : rB.success <;> simp [hb] at hfB' ⊢
  have hcleanB : failedTerminal rB = false := by
    simp [failedTerminal, hsB]
  set rC := stepResultOf "1.2 Revalidar Extracto"
    (_wrap_validacion (env.validarExtracto 1)) with hrC
  rcases execute_step_cases env (stepAppend (stepAppend st rA) rB)
      "1.2 Revalidar Extracto" (_wrap_validacion (env.validarExtracto 1))
      with hC | ⟨eC, hC, _⟩
  case inr =>
    rw [← hrC] at hC
    simp only [hC]
    refine phaseInv_raised env paso1Names st _ eC [rA, rB, rC]
      [Event.observerCall rA, Event.observerCall rB, Event.observerCall rC]
      rfl rfl ?_ ?_ ?_ ?_ ?_ ?_
    · simp [stepAppend_steps, List.append_assoc]
    · simp [stepAppend_events, List.append_assoc]
    · intro r hr; simp at hr
      rcases hr with rfl | rfl | rfl
      · rw [hrA, stepResultOf_nombre]; simp [paso1Names]
      · rw [hrB, stepResultOf_nombre]; simp [paso1Names]
      · rw [hrC, stepResultOf_nombre]; simp [paso1Names]
    · intro r hr; simp [List.dropLast] at hr
      rcases hr with rfl | rfl
      · exact hcleanA
      · exact hcleanB
    · simp [ticketCount, List.countP_cons, isTicketAttempt, List.countP_nil]
    · simp [alertCount, List.countP_cons, isAlerta, List.countP_nil]
  rw [← hrC] at hC
  simp only [hC]
  split
  · -- still stale after refresh: escalate and stop
    next hfC =>
    obtain ⟨hs, ht, htk, hev⟩ := handle_error_spec env
      (stepAppend (stepAppend (stepAppend st rA) rB) rC)
      "Validación post-refresh" rC.mensaje
    refine phaseInv_term env paso1Names st _ _ [rA, rB, rC]
      [Event.observerCall rA, Event.observerCall rB, Event.observerCall rC,
       Event.ticketAttempt ("[AUTO] Error en Reportes MP: " ++ "Validación post-refresh") rC.mensaje,
       Event.alerta ("Error en: " ++ "Validación post-refresh") rC.mensaje
         (ticketAfter env st.ticket_jira)]
      ht htk ?_ ?_ ?_ ?_ ?_ ?_
    · rw [hs]; simp [stepAppend_steps, List.append_assoc]
    · rw [hev]; simp [stepAppend_events, stepAppend_ticket, List.append_assoc]
    · intro r hr; simp at hr
      rcases hr with rfl | rfl | rfl
      · rw [hrA, stepResultOf_nombre]; simp [paso1Names]
      · rw [hrB, stepResultOf_nombre]; simp [paso1Names]
      · rw [hrC, stepResultOf_nombre]; simp [paso1Names]
    · intro r hr; simp [List.dropLast] at hr
      rcases hr with rfl | rfl
      · exact hcleanA
      · exact hcleanB
    · simp [ticketCount, List.countP_cons, isTicketAttempt, List.countP_nil]
    · simp [alertCount, List.countP_cons, isAlerta, List.countP_nil]
  next hfC' =>
  have hsC : rC.success = true := by
    cases hb : rC.success <;> simp [hb] at hfC' ⊢
  refine phaseInv_cont env paso1Names st _ [rA, rB, rC]
    [Event.observerCall rA, Event.observerCall rB, Event.observerCall rC]
    rfl rfl ?_ ?_ ?_ ?_ ?_ ?_
  · simp [stepAppend_steps, List.append_assoc]
  · simp [stepAppend_events, List.append_assoc]
  · intro r hr; simp at hr
    rcases hr with rfl | rfl | rfl
    · rw [hrA, stepResultOf_nombre]; simp [paso1Names]
    · rw [hrB, stepResultOf_nombre]; simp [paso1Names]
    · rw [hrC, stepResultOf_nombre]; simp [paso1Names]
  · intro r hr; simp at hr
    rcases hr with rfl | rfl | rfl
    · exact hcleanA
    · exact hcleanB
    · simp [failedTerminal, hsC]
  · simp [ticketCount, List.countP_cons, isTicketAttempt, List.countP_nil]
  · simp [alertCount, List.countP_cons, isAlerta, List.countP_nil]

theorem paso2_inv (env : Env) (st : WState) :
    phaseInv env paso2Names st (run_full_paso2 env st) := by
  unfold run_full_paso2
  set rA := stepResultOf "2. Validar Inventario SQL"
    (_validar_inventario env.validarInventario) with hrA
  have hnameA : rA.nombre = "2. Validar Inventario SQL" := by
    rw [hrA, stepResultOf_nombre]
  have hcleanA : failedTerminal rA = false := by
    unfold failedTerminal
    rw [hnameA, contains_validar2, Bool.false_and]
  rcases execute_step_cases env st "2. Validar Inventario SQL"
      (_validar_inventario env.validarInventario) with hA | ⟨eA, hA, _⟩
  case inr =>
    rw [← hrA] at hA
    simp only [hA]
    refine phaseInv_raised env paso2Names st _ eA [rA] [Event.observerCall rA]
      rfl rfl rfl rfl ?_ ?_ ?_ ?_
    · intro r hr; simp at hr; subst hr
      rw [hnameA]; simp [paso2Names]
    · simp [cleanSteps]
    · simp [ticketCount, List.countP_cons, isTicketAttempt, List.countP_nil]
    · simp [alertCount, List.countP_cons, isAlerta, List.countP_nil]
  rw [← hrA] at hA
  simp only [hA]
  split
  case isFalse =>
    -- no corrective branch: fall through (also when the step failed with
    -- no hay_diferencias detail)
    refine phaseInv_cont env paso2Names st _ [rA] [Event.observerCall rA]
      rfl rfl rfl rfl ?_ ?_ ?_ ?_
    · intro r hr; simp at hr; subst hr
      rw [hnameA]; simp [paso2Names]
    · intro r hr; simp at hr; subst hr; exact hcleanA
    · simp [ticketCount, List.countP_cons, isTicketAttempt, List.countP_nil]
    · simp [alertCount, List.countP_cons, isAlerta, List.countP_nil]
  case isTrue hdiff =>
  set rB := stepResultOf "2.1 Ejecutar Jobs Correctivos"
    (Except.ok (_ejecutar_jobs_correctivos env.executeJob rA.detalles.acciones))
    with hrB
  rcases execute_step_cases env (stepAppend st rA) "2.1 Ejecutar Jobs Correctivos"
      (Except.ok (_ejecutar_jobs_correctivos env.executeJob rA.detalles.acciones))
      with hB | ⟨eB, hB, _⟩
  case inr =>
    rw [← hrB] at hB
    simp only [hB]
    refine phaseInv_raised env paso2Names st _ eB [rA, rB]
      [Event.observerCall rA, Event.observerCall rB]
      rfl rfl ?_ ?_ ?_ ?_ ?_ ?_
    · simp [stepAppend_steps, List.append_assoc]
    · simp [stepAppend_events, List.append_assoc]
    · intro r hr; simp at hr
      rcases hr with rfl | rfl
      · rw [hnameA]; simp [paso2Names]
      · rw [hrB, stepResultOf_nombre]; simp [paso2Names]
    · intro r hr; simp [List.dropLast] at hr; subst hr; exact hcleanA
    · simp [ticketCount, List.countP_cons, isTicketAttempt, List.countP_nil]
    · simp [alertCount, List.countP_cons, isAlerta, List.countP_nil]
  rw [← hrB] at hB
  simp only [hB]
  split
  · -- corrective jobs failed: escalate and stop
    next hfB =>
    obtain ⟨hs, ht, htk, hev⟩ := handle_error_spec env
      (stepAppend (stepAppend st rA) rB) "Jobs Correctivos" rB.mensaje
    refine phaseInv_term env paso2Names st _ _ [rA, rB]
      [Event.observerCall rA, Event.observerCall rB,
       Event.ticketAttempt ("[AUTO] Error en Reportes MP: " ++ "Jobs Correctivos") rB.mensaje,
       Event.alerta ("Error en: " ++ "Jobs Correctivos") rB.mensaje
         (ticketAfter env st.ticket_jira)]
      ht htk ?_ ?_ ?_ ?_ ?_ ?_
    · rw [hs]; simp [stepAppend_steps, List.append_assoc]
    · rw [hev]; simp [stepAppend_events, stepAppend_ticket, List.append_assoc]
    · intro r hr; simp at hr
      rcases hr with rfl | rfl
      · rw [hnameA]; simp [paso2Names]
      · rw [hrB, stepResultOf_nombre]; simp [paso2Names]
    · intro r hr; simp [List.dropLast] at hr; subst hr; exact hcleanA
    · simp [ticketCount, List.countP_cons, isTicketAttempt, List.countP_nil]
    · simp [alertCount, List.countP_cons, isAlerta, List.countP_nil]
  next hfB' =>
  have hsB : rB.success = true := by
    cases hb : rB.success <;> simp [hb] at hfB' ⊢
  have hcleanB : failedTerminal rB = false := by
    simp [failedTerminal, hsB]
  set rC := stepResultOf "2.2 Actualizar Cubo"
    (Except.ok (let (s, m) := env.jobInventario
                (s, m, some {}))) with hrC
  rcases execute_step_cases env (stepAppend (stepAppend st rA) rB)
      "2.2 Actualizar Cubo"
      (Except.ok (let (s, m) := env.jobInventario
                  (s, m, some {}))) with hC | ⟨eC, hC, _⟩
  case inr =>
    rw [← hrC] at hC
    simp only [hC]
    refine phaseInv_raised env paso2Names st _ eC [rA, rB, rC]
      [Event.observerCall rA, Event.observerCall rB, Event.observerCall rC]
      rfl rfl ?_ ?_ ?_ ?_ ?_ ?_
    · simp [stepAppend_steps, List.append_assoc]
    · simp [stepAppend_events, List.append_assoc]
    · intro r hr; simp at hr
      rcases hr with rfl | rfl | rfl
      · rw [hnameA]; simp [paso2Names]
      · rw [hrB, stepResultOf_nombre]; simp [paso2Names]
      · rw [hrC, stepResultOf_nombre]; simp [paso2Names]
    · intro r hr; simp [List.dropLast] at hr
      rcases hr with rfl | rfl
      · exact hcleanA
      · exact hcleanB
    · simp [ticketCount, List.countP_cons, isTicketAttempt, List.countP_nil]
    · simp [alertCount, List.countP_cons, isAlerta, List.countP_nil]
  rw [← hrC] at hC
  simp only [hC]
  split
  · -- cube refresh failed: escalate and stop
    next hfC =>
    obtain ⟨hs, ht, htk, hev⟩ := handle_error_spec env
      (stepAppend (stepAppend (stepAppend st rA) rB) rC)
      "Actualización de Cubo" rC.mensaje
    refine phaseInv_term env paso2Names st _ _ [rA, rB, rC]
      [Event.observerCall rA, Event.observerCall rB, Event.observerCall rC,
       Event.ticketAttempt ("[AUTO] Error en Reportes MP: " ++ "Actualización de Cubo") rC.mensaje,
       Event.alerta ("Error en: " ++ "Actualización de Cubo") rC.mensaje
         (ticketAfter env st.ticket_jira)]
      ht htk ?_ ?_ ?_ ?_ ?_ ?_
    · rw [hs]; simp [stepAppend_steps, List.append_assoc]
    · rw [hev]; simp [stepAppend_events, stepAppend_ticket, List.append_assoc]
    · intro r hr; simp at hr
      rcases hr with rfl | rfl | rfl
      · rw [hnameA]; simp [paso2Names]
      · rw [hrB, stepResultOf_nombre]; simp [paso2Names]
      · rw [hrC, stepResultOf_nombre]; simp [paso2Names]
    · intro r hr; simp [List.dropLast] at hr
      rcases hr with rfl | rfl
      · exact hcleanA
      · exact hcleanB
    · simp [ticketCount, List.countP_cons, isTicketAttempt, List.countP_nil]
    · simp [alertCount, List.countP_cons, isAlerta, List.countP_nil]
  next hfC' =>
  have hsC : rC.success = true := by
    cases hb : rC.success <;> simp [hb] at hfC' ⊢
  refine phaseInv_cont env paso2Names st _ [rA, rB, rC]
    [Event.observerCall rA, Event.observerCall rB, Event.observerCall rC]
    rfl rfl ?_ ?_ ?_ ?_ ?_ ?_
  · simp [stepAppend_steps, List.append_assoc]
  · simp [stepAppend_events, List.append_assoc]
  · intro r hr; simp at hr
    rcases hr with rfl | rfl | rfl
    · rw [hnameA]; simp [paso2Names]
    · rw [hrB, stepResultOf_nombre]; simp [paso2Names]
    · rw [hrC, stepResultOf_nombre]; simp [paso2Names]
  · intro r hr; simp at hr
    rcases hr with rfl | rfl | rfl
    · exact hcleanA
    · exact hcleanB
    · simp [failedTerminal, hsC]
  · simp [ticketCount, List.countP_cons, isTicketAttempt, List.countP_nil]
  · simp [alertCount, List.countP_cons, isAlerta, List.countP_nil]

theorem midState_cont (env : Env) (names : List String) (st0 : WState)
    (now : Nat) (stM : WState) (Eacc : List Event) (st' : WState)
    (hmid : midState st0 now stM Eacc)
    (hinv : phaseInv env names stM (RunOut.ok none st')) :
    ∃ Eacc', midState st0 now st' Eacc' := by
  obtain ⟨hTk, hSt, hClean, hEv, hTc, hAc⟩ := hmid
  obtain ⟨hTk', hSt', Δ, E, hSteps', hEv', _, hCleanΔ, hTcE, hAcE⟩ := hinv
  refine ⟨Eacc ++ E, ?_, ?_, ?_, ?_, ?_, ?_⟩
  · rw [hTk', hTk]
  · rw [hSt', hSt]
  · rw [hSteps']; exact cleanSteps_append hClean hCleanΔ
  · rw [hEv', hEv, List.append_assoc]
  · rw [ticketCount, List.countP_append, ← ticketCount, ← ticketCount,
      hTc, hTcE]
  · rw [alertCount, List.countP_append, ← alertCount, ← alertCount,
      hAc, hAcE]

theorem master_term (env : Env) (names : List String) (st0 : WState)
    (now : Nat) (stM : WState) (Eacc : List Event) (v : Bool) (m : String)
    (stF : WState) (hmid : midState st0 now stM Eacc)
    (hinv : phaseInv env names stM (RunOut.ok (some (v, m)) stF)) :
    masterPost env st0 now v stF := by
  obtain ⟨hTk, hSt, hClean, hEv, hTc, hAc⟩ := hmid
  obtain ⟨hv, hSt', hTk', Δ, E, hSteps', hEv', _, hCleanΔ, hTcE, hAcE⟩ := hinv
  refine ⟨by rw [hSt', hSt], Or.inr (by rw [hTk', hTk]), Eacc ++ E, ?_, ?_,
    ?_, ?_, ?_, ?_⟩
  · rw [hEv', hEv, List.append_assoc]
  · rw [hSteps']; exact cleanSteps_of_dropLast_append hClean hCleanΔ
  · rw [ticketCount, List.countP_append, ← ticketCount, ← ticketCount,
      hTc, hTcE]
  · rw [alertCount, List.countP_append, ← alertCount, ← alertCount,
      hAc, hAcE]
  · intro _
    refine ⟨hv, ?_, ?_⟩
    · rw [ticketCount, List.countP_append, ← ticketCount, ← ticketCount,
        hTc, hTcE]
    · rw [alertCount, List.countP_append, ← alertCount, ← alertCount,
        hAc, hAcE]
  · intro _
    constructor
    · rw [ticketCount, List.countP_append, ← ticketCount, ← ticketCount,
        hTc, hTcE]
    · rw [alertCount, List.countP_append, ← alertCount, ← alertCount,
        hAc, hAcE]

theorem master_raised (env : Env) (names : List String) (st0 : WState)
    (now : Nat) (stM : WState) (Eacc : List Event) (e : String)
    (stR : WState) (hmid : midState st0 now stM Eacc)
    (hinv : phaseInv env names stM (RunOut.raised e stR)) :
    masterPost env st0 now false
      (_handle_error env stR "Error Inesperado" e) := by
  obtain ⟨hTk, hSt, hClean, hEv, hTc, hAc⟩ := hmid
  obtain ⟨hTk', hSt', Δ, E, hSteps', hEv', _, hCleanΔ, hTcE, hAcE⟩ := hinv
  obtain ⟨hs, ht, htk, hev⟩ := handle_error_spec env stR "Error Inesperado" e
  refine ⟨by rw [ht, hSt', hSt], Or.inr (by rw [htk, hTk', hTk]),
    Eacc ++ E ++
      [Event.ticketAttempt ("[AUTO] Error en Reportes MP: " ++ "Error Inesperado") e,
       Event.alerta ("Error en: " ++ "Error Inesperado") e
         (ticketAfter env stR.ticket_jira)], ?_, ?_, ?_, ?_, ?_, ?_⟩
  · rw [hev, hEv', hEv]
    simp [List.append_assoc]
  · rw [hs, hSteps']; exact cleanSteps_of_dropLast_append hClean hCleanΔ
  · rw [ticketCount, List.countP_append, List.countP_append]
    rw [← ticketCount, ← ticketCount, hTc, hTcE]
    simp [ticketCount, List.countP_cons, isTicketAttempt, List.countP_nil]
  · rw [alertCount, List.countP_append, List.countP_append]
    rw [← alertCount, ← alertCount, hAc, hAcE]
    simp [alertCount, List.countP_cons, isAlerta, List.countP_nil]
  · intro _
    refine ⟨rfl, ?_, ?_⟩
    · rw [ticketCount, List.countP_append, List.countP_append]
      rw [← ticketCount, ← ticketCount, hTc, hTcE]
      simp [ticketCount, List.countP_cons, isTicketAttempt, List.countP_nil]
    · rw [alertCount, List.countP_append, List.countP_append]
      rw [← alertCount, ← alertCount, hAc, hAcE]
      simp [alertCount, List.countP_cons, isAlerta, List.countP_nil]
  · intro _
    constructor
    · rw [ticketCount, List.countP_append, List.countP_append]
      rw [← ticketCount, ← ticketCount, hTc, hTcE]
      simp [ticketCount, List.countP_cons, isTicketAttempt, List.countP_nil]
    · rw [alertCount, List.countP_append, List.countP_append]
      rw [← alertCount, ← alertCount, hAc, hAcE]
      simp [alertCount, List.countP_cons, isAlerta, List.countP_nil]

theorem master_success (env : Env) (st0 : WState) (now : Nat) (stM : WState)
    (Eacc : List Event) (hmid : midState st0 now stM Eacc) :
    masterPost env st0 now true
      { stM with events := stM.events ++ [Event.resumen true] } := by
  obtain ⟨hTk, hSt, hClean, hEv, hTc, hAc⟩ := hmid
  refine ⟨hSt, Or.inl hTk, Eacc ++ [Event.resumen true], ?_, ?_, ?_, ?_, ?_, ?_⟩
  · show stM.events ++ [Event.resumen true] = _
    rw [hEv, List.append_assoc]
  · exact cleanSteps_dropLast_of_clean hClean
  · rw [ticketCount, List.countP_append, ← ticketCount, ← ticketCount, hTc]
    simp [ticketCount, List.countP_cons, isTicketAttempt, List.countP_nil]
  · rw [alertCount, List.countP_append, ← alertCount, ← alertCount, hAc]
    simp [alertCount, List.countP_cons, isAlerta, List.countP_nil]
  · intro hbad
    obtain ⟨r, hr, hft⟩ := hbad
    have := hClean r hr
    rw [this] at hft
    exact absurd hft (by simp)
  · intro hv
    exact absurd hv (by simp)

theorem run_full_eq (env : Env) (now : Nat) (st0 : WState) :
    run_full env now st0 =
      match run_full_body env
          { st0 with startTime := some now, steps := [], ticket_jira := none } with
      | RunOut.ok v st => RunOut.ok v st
      | RunOut.raised e st =>
          RunOut.ok (false, e) (_handle_error env st "Error Inesperado" e) := rfl

theorem run_full_tail5_post (env : Env) (st0 : WState) (now : Nat)
    (stM : WState) (Eacc : List Event) (hmid : midState st0 now stM Eacc) :
    (∃ v m stF, run_full_tail5 env stM = RunOut.ok (v, m) stF ∧
        masterPost env st0 now v stF) ∨
    (∃ e stR, run_full_tail5 env stM = RunOut.raised e stR ∧
        masterPost env st0 now false
          (_handle_error env stR "Error Inesperado" e)) := by
  unfold run_full_tail5
  have H := paso5_inv env stM
  cases h : run_full_paso5 env stM with
  | raised e st' =>
      rw [h] at H
      exact Or.inr ⟨e, st', rfl,
        master_raised env paso5Names st0 now _ Eacc e st' hmid H⟩
  | ok val st' =>
    rw [h] at H
    cases val with
    | some vm =>
        obtain ⟨vv, mm⟩ := vm
        exact Or.inl ⟨vv, mm, st', rfl,
          master_term env paso5Names st0 now _ Eacc vv mm st' hmid H⟩
    | none =>
        obtain ⟨Eacc', hmid'⟩ :=
          midState_cont env paso5Names st0 now _ Eacc st' hmid H
        exact Or.inl ⟨true, "Proceso completado en " ++ fmtSecs, _, rfl,
          master_success env st0 now st' Eacc' hmid'⟩

theorem run_full_tail4_post (env : Env) (st0 : WState) (now : Nat)
    (stM : WState) (Eacc : List Event) (hmid : midState st0 now stM Eacc) :
    (∃ v m stF, run_full_tail4 env stM = RunOut.ok (v, m) stF ∧
        masterPost env st0 now v stF) ∨
    (∃ e stR, run_full_tail4 env stM = RunOut.raised e stR ∧
        masterPost env st0 now false
          (_handle_error env stR "Error Inesperado" e)) := by
  unfold run_full_tail4
  have H := paso4_inv env stM
  cases h : run_full_paso4 env stM with
  | raised e st' =>
      rw [h] at H
      exact Or.inr ⟨e, st', rfl,
        master_raised env paso4Names st0 now _ Eacc e st' hmid H⟩
  | ok val st' =>
    rw [h] at H
    cases val with
    | some vm =>
        obtain ⟨vv, mm⟩ := vm
        exact Or.inl ⟨vv, mm, st', rfl,
          master_term env paso4Names st0 now _ Eacc vv mm st' hmid H⟩
    | none =>
        obtain ⟨Eacc', hmid'⟩ :=
          midState_cont env paso4Names st0 now _ Eacc st' hmid H
        exact run_full_tail5_post env st0 now st' Eacc' hmid'

theorem run_full_tail3_post (env : Env) (st0 : WState) (now : Nat)
    (stM : WState) (Eacc : List Event) (hmid : midState st0 now stM Eacc) :
    (∃ v m stF, run_full_tail3 env stM = RunOut.ok (v, m) stF ∧
        masterPost env st0 now v stF) ∨
    (∃ e stR, run_full_tail3 env stM = RunOut.raised e stR ∧
        masterPost env st0 now false
          (_handle_error env stR "Error Inesperado" e)) := by
  unfold run_full_tail3
  have H := paso3_inv env stM
  cases h : run_full_paso3 env stM with
  | raised e st' =>
      rw [h] at H
      exact Or.inr ⟨e, st', rfl,
        master_raised env paso3Names st0 now _ Eacc e st' hmid H⟩
  | ok val st' =>
    rw [h] at H
    cases val with
    | some vm =>
        obtain ⟨vv, mm⟩ := vm
        exact Or.inl ⟨vv, mm, st', rfl,
          master_term env paso3Names st0 now _ Eacc vv mm st' hmid H⟩
    | none =>
        obtain ⟨Eacc', hmid'⟩ :=
          midState_cont env paso3Names st0 now _ Eacc st' hmid H
        exact run_full_tail4_post env st0 now st' Eacc' hmid'

theorem run_full_tail2_post (env : Env) (st0 : WState) (now : Nat)
    (stM : WState) (Eacc : List Event) (hmid : midState st0 now stM Eacc) :
    (∃ v m stF, run_full_tail2 env stM = RunOut.ok (v, m) stF ∧
        masterPost env st0 now v stF) ∨
    (∃ e stR, run_full_tail2 env stM = RunOut.raised e stR ∧
        masterPost env st0 now false
          (_handle_error env stR "Error Inesperado" e)) := by
  unfold run_full_tail2
  have H := paso2_inv env stM
  cases h : run_full_paso2 env stM with
  | raised e st' =>
      rw [h] at H
      exact Or.inr ⟨e, st', rfl,
        master_raised env paso2Names st0 now _ Eacc e st' hmid H⟩
  | ok val st' =>
    rw [h] at H
    cases val with
    | some vm =>
        obtain ⟨vv, mm⟩ := vm
        exact Or.inl ⟨vv, mm, st', rfl,
          master_term env paso2Names st0 now _ Eacc vv mm st' hmid H⟩
    | none =>
        obtain ⟨Eacc', hmid'⟩ :=
          midState_cont env paso2Names st0 now _ Eacc st' hmid H
        exact run_full_tail3_post env st0 now st' Eacc' hmid'

theorem run_full_body_post (env : Env) (st0 : WState) (now : Nat)
    (stM : WState) (Eacc : List Event) (hmid : midState st0 now stM Eacc) :
    (∃ v m stF, run_full_body env stM = RunOut.ok (v, m) stF ∧
        masterPost env st0 now v stF) ∨
    (∃ e stR, run_full_body env stM = RunOut.raised e stR ∧
        masterPost env st0 now false
          (_handle_error env stR "Error Inesperado" e)) := by
  unfold run_full_body
  have H := paso1_inv env stM
  cases h : run_full_paso1 env stM with
  | raised e st' =>
      rw [h] at H
      exact Or.inr ⟨e, st', rfl,
        master_raised env paso1Names st0 now _ Eacc e st' hmid H⟩
  | ok val st' =>
    rw [h] at H
    cases val with
    | some vm =>
        obtain ⟨vv, mm⟩ := vm
        exact Or.inl ⟨vv, mm, st', rfl,
          master_term env paso1Names st0 now _ Eacc vv mm st' hmid H⟩
    | none =>
        obtain ⟨Eacc', hmid'⟩ :=
          midState_cont env paso1Names st0 now _ Eacc st' hmid H
        exact run_full_tail2_post env st0 now st' Eacc' hmid'

theorem run_full_master (env : Env) (now : Nat) (st0 : WState) :
    ∃ v m stF, run_full env now st0 = RunOut.ok (v, m) stF ∧
      masterPost env st0 now v stF := by
  have hmid1 : midState st0 now
      { st0 with startTime := some now, steps := [], ticket_jira := none }
      [] :=
    ⟨rfl, rfl, cleanSteps_nil, (List.append_nil _).symm, rfl, rfl⟩
  rw [run_full_eq]
  rcases run_full_body_post env st0 now
      { st0 with startTime := some now, steps := [], ticket_jira := none }
      [] hmid1 with ⟨v, m, stF, hbody, hpost⟩ | ⟨e, stR, hbody, hpost⟩
  · rw [hbody]
    exact ⟨v, m, stF, rfl, hpost⟩
  · rw [hbody]
    exact ⟨false, e, _, rfl, hpost⟩

/-- C1: in run_full, a failed StepResult of a gate named in `TerminalGates`
forces the failure verdict, leaves every step but the last clean (so no
pipeline step ran after the failed gate) and is answered by exactly one
escalation (one ticket attempt, one error alert) — for every collaborator
and observer behaviour.  This is the amended claim: the original claim
extended this to EVERY failed gate step, "in particular '2. Validar
Inventario SQL' regardless of why it failed", which `C1_counterexample`
refutes. -/
theorem C1_terminal_gate_failure (env : Env) (now : Nat) (st0 : WState)
    (v : Bool) (m : String) (stF : WState)
    (hrun : run_full env now st0 = RunOut.ok (v, m) stF)
    (r : StepResult) (hr : r ∈ stF.steps)
    (hfail : failedTerminal r = true) :
    v = false ∧ cleanSteps stF.steps.dropLast ∧
    ∃ E, stF.events = st0.events ++ E ∧
      ticketCount E = 1 ∧ alertCount E = 1 := by
  obtain ⟨v', m', stF', hrun', hpost⟩ := run_full_master env now st0
  rw [hrun] at hrun'
  cases hrun'
  obtain ⟨_, _, E, hE, hclean, _, _, himpl, _⟩ := hpost
  obtain ⟨hv, htc, hac⟩ := himpl ⟨r, hr, hfail⟩
  exact ⟨hv, hclean, E, hE, htc, hac⟩

/-- C1 witness: the stale-extract, cancelled-refresh scenario — the failed
"1.1 Refresh Extracto" gate is terminal, the verdict is false and exactly
one escalation happened. -/
theorem C1_terminal_gate_failure_witness :
    false = false ∧
    cleanSteps (RunOut.state (run_full envRefreshFail 0 initState)).steps.dropLast ∧
    ∃ E, (RunOut.state (run_full envRefreshFail 0 initState)).events =
        initState.events ++ E ∧
      ticketCount E = 1 ∧ alertCount E = 1 :=
  C1_terminal_gate_failure envRefreshFail 0 initState false
    ("Error en extracto: " ++ "Refresh cancelado")
    (RunOut.state (run_full envRefreshFail 0 initState)) rfl
    { nombre := "1.1 Refresh Extracto", success := false,
      mensaje := "Refresh cancelado", duracion := 0,
      detalles := {} }
    (by decide) (by decide)

/-- C1 counterexample: when the inventory validation raises, its gate step
is recorded failed with empty detalles, yet run_full performs NO
escalation, continues with the PDF, copy and mail steps and even returns
success — refuting "escalation and immediate terminal return for every
failed gate step, in particular '2. Validar Inventario SQL' regardless of
why it failed". -/
theorem C1_counterexample :
    (RunOut.state (run_full envInvRaise 0 initState)).steps.map
        (fun r => (r.nombre, r.success)) =
      [("1. Validar Extracto Tableau", true),
       ("2. Validar Inventario SQL", false),
       ("3. Descargar PDFs", true),
       ("4. Copiar a DEADWH", true),
       ("5. Enviar Correos", true)] ∧
    run_full envInvRaise 0 initState =
      RunOut.ok (true, "Proceso completado en 0s")
        (RunOut.state (run_full envInvRaise 0 initState)) ∧
    ticketCount (RunOut.state (run_full envInvRaise 0 initState)).events = 0 ∧
    alertCount (RunOut.state (run_full envInvRaise 0 initState)).events = 0 := by
  refine ⟨by decide, rfl, by decide, by decide⟩

theorem ticketAfter_cases (env : Env) :
    ticketAfter env none = none ∨
    ∃ k, env.jiraValid = true ∧ env.createIssue = Except.ok k ∧
      ticketAfter env none = some k := by
  unfold ticketAfter crear_ticket_error
  cases hv : env.jiraValid with
  | false => left; simp
  | true =>
    cases hc : env.createIssue with
    | ok k => right; exact ⟨k, rfl, rfl, by simp⟩
    | error e => left; simp

/-- C5: within one run_full, the stored ticket identifier is set at most
once — the run records at most one ticket-creation attempt, and the final
`ticket_jira` is either still unset or exactly the key of the one
successfully created ticket (so a later failure never overwrites it). -/
theorem C5_ticket_set_once (env : Env) (now : Nat) (st0 : WState) :
    ∃ v m stF, run_full env now st0 = RunOut.ok (v, m) stF ∧
      (∃ E, stF.events = st0.events ++ E ∧ ticketCount E ≤ 1) ∧
      (stF.ticket_jira = none ∨
        ∃ k, env.jiraValid = true ∧ env.createIssue = Except.ok k ∧
          stF.ticket_jira = some k) := by
  obtain ⟨v, m, stF, hrun, hpost⟩ := run_full_master env now st0
  obtain ⟨_, htk, E, hE, _, htc, _, _, _⟩ := hpost
  refine ⟨v, m, stF, hrun, ⟨E, hE, htc⟩, ?_⟩
  rcases htk with h | h
  · exact Or.inl h
  · rcases ticketAfter_cases env with h2 | ⟨k, hv, hc, h2⟩
    · exact Or.inl (h.trans h2)
    · exact Or.inr ⟨k, hv, hc, h.trans h2⟩

theorem execute_step_state (env : Env) (st : WState) (n : String)
    (f : Except String (Bool × String × Option Detalles)) :
    RunOut.state (_execute_step env st n f) =
      stepAppend st (stepResultOf n f) := by
  rcases execute_step_cases env st n f with h | ⟨e, h, _⟩ <;> rw [h] <;> rfl

/-- C2: `_execute_step` converts a raising operation into a recorded
StepResult with success=false, message=str(e), empty detalles; records a
returned triple unchanged (detalles defaulting to the empty dict when the
operation returned a falsy one); in both cases appends the result to the
step list; and never re-raises the operation error — the only raise it can
propagate is the observer callback's, so with a non-raising observer it
returns normally for EVERY operation. -/
theorem C2_execute_step_spec (env : Env) (st : WState) (nombre e m : String)
    (s : Bool) (d : Option Detalles) :
    ((RunOut.state (_execute_step env st nombre (Except.error e))).steps =
      st.steps ++ [{ nombre := nombre, success := false, mensaje := e,
                     duracion := 0, detalles := {} }]) ∧
    ((RunOut.state (_execute_step env st nombre (Except.ok (s, m, d)))).steps =
      st.steps ++ [{ nombre := nombre, success := s, mensaje := m,
                     duracion := 0, detalles := d.getD {} }]) ∧
    (∀ r st', _execute_step env st nombre (Except.error e) =
        RunOut.ok r st' →
      r = { nombre := nombre, success := false, mensaje := e,
            duracion := 0, detalles := {} }) ∧
    (∀ r st', _execute_step env st nombre (Except.ok (s, m, d)) =
        RunOut.ok r st' →
      r = { nombre := nombre, success := s, mensaje := m,
            duracion := 0, detalles := d.getD {} }) ∧
    ((∀ i r, env.observer i r = Except.ok ()) →
      ∀ f, (_execute_step env st nombre f).isRaised = false) := by
  refine ⟨?_, ?_, ?_, ?_, ?_⟩
  · rw [execute_step_state]; rfl
  · rw [execute_step_state]; rfl
  · intro r st' heq
    rcases execute_step_cases env st nombre (Except.error e) with h | ⟨e', h, _⟩
    · rw [h] at heq
      cases heq; rfl
    · rw [h] at heq
      exact RunOut.noConfusion heq
  · intro r st' heq
    rcases execute_step_cases env st nombre (Except.ok (s, m, d)) with h | ⟨e', h, _⟩
    · rw [h] at heq
      cases heq; rfl
    · rw [h] at heq
      exact RunOut.noConfusion heq
  · intro hobs f
    simp only [_execute_step, hobs]
    rfl

/-- C2 witness: a raising operation at a concrete input is absorbed into a
failed recorded step and no exception leaves the wrapper. -/
theorem C2_witness :
    ((RunOut.state (_execute_step envOk initState "X" (Except.error "boom"))).steps =
      initState.steps ++ [{ nombre := "X", success := false, mensaje := "boom",
                            duracion := 0, detalles := {} }]) ∧
    (_execute_step envOk initState "X" (Except.error "boom")).isRaised = false :=
  ⟨(C2_execute_step_spec envOk initState "X" "boom" "ok" true none).1,
   (C2_execute_step_spec envOk initState "X" "boom" "ok" true none).2.2.2.2
     (fun _ _ => rfl) _⟩

theorem erroresOf_append (f : Nat → String → Bool × String) :
    ∀ (l1 l2 : List String) (k : Nat),
      erroresOf f k (l1 ++ l2) =
        erroresOf f k l1 ++ erroresOf f (k + l1.length) l2 := by
  intro l1
  induction l1 with
  | nil => intro l2 k; simp [erroresOf]
  | cons n rest ih =>
      intro l2 k
      rw [List.cons_append, erroresOf, erroresOf, ih l2 (k + 1),
        List.append_assoc, List.length_cons]
      have h : k + 1 + rest.length = k + (rest.length + 1) := by omega
      rw [h]

theorem tryJob_eq (f : Nat → String → Bool × String) (k : Nat)
    (errs : List String) (name : String) :
    tryJob f k errs name =
      (k + (if name ≠ "" then [name] else []).length,
       errs ++ erroresOf f k (if name ≠ "" then [name] else [])) := by
  by_cases h : name = "" <;> rcases hsm : f k name with ⟨s, m⟩ <;> cases s <;>
    simp [tryJob, erroresOf, h, hsm]

theorem jobs_loop_spec (f : Nat → String → Bool × String) :
    ∀ (acciones : List Accion) (k : Nat) (errores : List String),
      jobs_loop f acciones k errores =
        (k + (attemptsOf acciones).length,
         errores ++ erroresOf f k (attemptsOf acciones)) := by
  intro acciones
  induction acciones with
  | nil => intro k errores; simp [jobs_loop, attemptsOf, erroresOf]
  | cons a rest ih =>
      intro k errores
      rw [jobs_loop, tryJob_eq f k errores a.accion1]
      rw [tryJob_eq f _ _ a.accion2]
      rw [ih]
      dsimp only
      rw [attemptsOf, erroresOf_append, erroresOf_append]
      simp [List.length_append, List.append_assoc, Nat.add_assoc]

/-- C3: the corrective-jobs step equals the fold that consults EVERY named
job of EVERY action — each action's Accion1 before its Accion2, actions in
list order, consecutive call indices, no short-circuit on failure — and it
succeeds iff the accumulated error list is empty, the failure message
joining all individual failure texts with `; `. -/
theorem C3_jobs_every_action (executeJob : Nat → String → Bool × String)
    (acciones : List Accion) :
    (_ejecutar_jobs_correctivos executeJob acciones =
      if (erroresOf executeJob 0 (attemptsOf acciones)).isEmpty then
        (true, toString acciones.length ++ " ubicaciones corregidas", some {})
      else
        (false, "Errores en jobs: " ++ String.intercalate "; "
          (erroresOf executeJob 0 (attemptsOf acciones)), some {})) ∧
    ((_ejecutar_jobs_correctivos executeJob acciones).1 = true ↔
      erroresOf executeJob 0 (attemptsOf acciones) = []) := by
  have hloop := jobs_loop_spec executeJob acciones 0 []
  have h1 : _ejecutar_jobs_correctivos executeJob acciones =
      if (erroresOf executeJob 0 (attemptsOf acciones)).isEmpty then
        (true, toString acciones.length ++ " ubicaciones corregidas", some {})
      else
        (false, "Errores en jobs: " ++ String.intercalate "; "
          (erroresOf executeJob 0 (attemptsOf acciones)), some {}) := by
    unfold _ejecutar_jobs_correctivos
    rw [hloop]
    dsimp only
    rw [List.nil_append]
    cases hb : (erroresOf executeJob 0 (attemptsOf acciones)).isEmpty
    · rw [if_pos (by decide : (!false) = true),
        if_neg (by decide : ¬(false = true))]
    · rw [if_neg (by decide : ¬((!true) = true)),
        if_pos (by decide : true = true)]
  refine ⟨h1, ?_⟩
  rw [h1]
  cases hb : (erroresOf executeJob 0 (attemptsOf acciones)).isEmpty
  · rw [if_neg (by decide : ¬(false = true))]
    constructor
    · intro h; exact absurd h (by simp)
    · intro h; rw [h] at hb; exact absurd hb (by simp)
  · rw [if_pos (by decide : true = true)]
    constructor
    · intro _; exact List.isEmpty_iff.mp hb
    · intro _; rfl

/-- C6: `_handle_error` is total for EVERY collaborator behaviour — a
raising Jira client or mail relay is absorbed inside `crear_ticket_error`
and `_send_via_dbmail`, whose own sources catch every exception — and it
always records exactly one ticket-creation attempt followed by one error
alert carrying the step name, the error text and the then-current stored
ticket reference (or none); the ticket identifier is updated only by a
successful creation, and the step list and start time are untouched. -/
theorem C6_handle_error_always_alerts (env : Env) (st : WState)
    (paso error : String) :
    (_handle_error env st paso error).events = st.events ++
      [Event.ticketAttempt ("[AUTO] Error en Reportes MP: " ++ paso) error,
       Event.alerta ("Error en: " ++ paso) error
         (ticketAfter env st.ticket_jira)] ∧
    (_handle_error env st paso error).ticket_jira =
      ticketAfter env st.ticket_jira ∧
    (_handle_error env st paso error).steps = st.steps ∧
    (_handle_error env st paso error).startTime = st.startTime := by
  obtain ⟨hs, ht, htk, hev⟩ := handle_error_spec env st paso error
  exact ⟨hev, htk, hs, ht⟩

/-- C7: the validation-only flow never escalates: for every outcome of the
freshness check, the refresh and the recheck (including raises), the stored
ticket identifier is untouched and the only events the run adds are
observer callbacks — no ticket attempt, no alert, no summary mail. -/
theorem C7_validation_only_pure (env : Env) (now : Nat) (st0 : WState) :
    (RunOut.state (run_validation_only env now st0)).ticket_jira =
      st0.ticket_jira ∧
    (RunOut.state (run_validation_only env now st0)).startTime = some now ∧
    ∃ E, (RunOut.state (run_validation_only env now st0)).events =
        st0.events ++ E ∧
      ∀ ev ∈ E, isObserverCall ev = true := by
  unfold run_validation_only
  dsimp only
  set rA := stepResultOf "Validar Extracto Tableau"
    (_wrap_validacion (env.validarExtracto 0)) with hrA
  rcases execute_step_cases env { st0 with startTime := some now, steps := [] }
      "Validar Extracto Tableau" (_wrap_validacion (env.validarExtracto 0))
      with hA | ⟨eA, hA, _⟩
  case inr =>
    rw [← hrA] at hA
    simp only [hA]
    exact ⟨rfl, rfl, [Event.observerCall rA], rfl, by
      intro ev hev; simp at hev; subst hev; rfl⟩
  rw [← hrA] at hA
  simp only [hA]
  split
  · next hsA =>
    exact ⟨rfl, rfl, [Event.observerCall rA], rfl, by
      intro ev hev; simp at hev; subst hev; rfl⟩
  next hsA =>
  set rB := stepResultOf "Refresh Extracto"
    (refresh_step_func env.refreshExtracto) with hrB
  rcases execute_step_cases env
      (stepAppend { st0 with startTime := some now, steps := [] } rA)
      "Refresh Extracto" (refresh_step_func env.refreshExtracto)
      with hB | ⟨eB, hB, _⟩
  case inr =>
    rw [← hrB] at hB
    simp only [hB]
    refine ⟨rfl, rfl, [Event.observerCall rA, Event.observerCall rB], ?_, ?_⟩
    · simp [RunOut.state, stepAppend_events, List.append_assoc]
    · intro ev hev; simp at hev
      rcases hev with rfl | rfl <;> rfl
  rw [← hrB] at hB
  simp only [hB]
  split
  · next hsB =>
    set rC := stepResultOf "Revalidar Extracto"
      (_wrap_validacion (env.validarExtracto 1)) with hrC
    rcases execute_step_cases env
        (stepAppend (stepAppend { st0 with startTime := some now, steps := [] } rA) rB)
        "Revalidar Extracto" (_wrap_validacion (env.validarExtracto 1))
        with hC | ⟨eC, hC, _⟩
    case inr =>
      rw [← hrC] at hC
      simp only [hC]
      refine ⟨rfl, rfl,
        [Event.observerCall rA, Event.observerCall rB, Event.observerCall rC],
        ?_, ?_⟩
      · simp [RunOut.state, stepAppend_events, List.append_assoc]
      · intro ev hev; simp at hev
        rcases hev with rfl | rfl | rfl <;> rfl
    rw [← hrC] at hC
    simp only [hC]
    refine ⟨rfl, rfl,
      [Event.observerCall rA, Event.observerCall rB, Event.observerCall rC],
      ?_, ?_⟩
    · simp [RunOut.state, stepAppend_events, List.append_assoc]
    · intro ev hev; simp at hev
      rcases hev with rfl | rfl | rfl <;> rfl
  · next hsB =>
    refine ⟨rfl, rfl, [Event.observerCall rA, Event.observerCall rB], ?_, ?_⟩
    · simp [RunOut.state, stepAppend_events, List.append_assoc]
    · intro ev hev; simp at hev
      rcases hev with rfl | rfl <;> rfl

theorem run_send_only_eq (env : Env) (es_prueba reporte now : Nat)
    (st0 : WState) :
    run_send_only env es_prueba reporte now st0 =
      match run_send_only_body env es_prueba reporte
          { st0 with startTime := some now, steps := [] } with
      | RunOut.ok v st => RunOut.ok v st
      | RunOut.raised e st =>
          RunOut.ok (false, e) (_handle_error env st "Error Inesperado" e) := rfl

/-- C8 (amended): run_full and run_send_only always return a definite
verdict for EVERY collaborator and observer behaviour (their whole body sits
in a `try/except` that absorbs any raise, escalates "Error Inesperado" and
returns `(False, str(e))`); run_validation_only returns a definite verdict
for every collaborator behaviour PROVIDED the observer callback does not
raise — `C8_counterexample` shows a raising observer escapes it. -/
theorem C8_definite_verdict :
    (∀ (env : Env) (es_prueba reporte now : Nat) (st0 : WState),
      (run_send_only env es_prueba reporte now st0).isRaised = false) ∧
    (∀ (env : Env) (now : Nat) (st0 : WState),
      (run_full env now st0).isRaised = false) ∧
    (∀ (env : Env) (now : Nat) (st0 : WState),
      (∀ i r, env.observer i r = Except.ok ()) →
      (run_validation_only env now st0).isRaised = false) := by
  refine ⟨?_, ?_, ?_⟩
  · intro env es_prueba reporte now st0
    rw [run_send_only_eq]
    cases run_send_only_body env es_prueba reporte
        { st0 with startTime := some now, steps := [] } <;> rfl
  · intro env now st0
    rw [run_full_eq]
    cases run_full_body env
        { st0 with startTime := some now, steps := [], ticket_jira := none } <;>
      rfl
  · intro env now st0 hobs
    unfold run_validation_only
    dsimp only
    rcases execute_step_cases env
        { st0 with startTime := some now, steps := [] }
        "Validar Extracto Tableau" (_wrap_validacion (env.validarExtracto 0))
        with hA | ⟨eA, hA, hAerr⟩
    · simp only [hA]
      split
      · rfl
      · rcases execute_step_cases env
            (stepAppend { st0 with startTime := some now, steps := [] }
              (stepResultOf "Validar Extracto Tableau"
                (_wrap_validacion (env.validarExtracto 0))))
            "Refresh Extracto" (refresh_step_func env.refreshExtracto)
            with hB | ⟨eB, hB, hBerr⟩
        · simp only [hB]
          split
          · rcases execute_step_cases env
                (stepAppend (stepAppend { st0 with startTime := some now, steps := [] }
                  (stepResultOf "Validar Extracto Tableau"
                    (_wrap_validacion (env.validarExtracto 0))))
                  (stepResultOf "Refresh Extracto"
                    (refresh_step_func env.refreshExtracto)))
                "Revalidar Extracto" (_wrap_validacion (env.validarExtracto 1))
                with hC | ⟨eC, hC, hCerr⟩
            · simp only [hC]; rfl
            · rw [hobs] at hCerr; exact Except.noConfusion hCerr
          · rfl
        · rw [hobs] at hBerr; exact Except.noConfusion hBerr
    · rw [hobs] at hAerr; exact Except.noConfusion hAerr

/-- C8 witness: the validation-only flow returns a definite verdict under a
non-raising observer at a concrete input. -/
theorem C8_witness :
    (run_validation_only envOk 0 initState).isRaised = false :=
  C8_definite_verdict.2.2 envOk 0 initState (fun _ _ => rfl)

/-- C8 counterexample: a raising observer callback escapes
run_validation_only (its body has no enclosing try/except, unlike run_full
and run_send_only), so "no exception escapes a run for every behaviour of
the collaborators and observer callback" is false as stated. -/
theorem C8_counterexample :
    (run_validation_only envObsRaise 0 initState).isRaised = true := by decide

theorem refresh_wait_timeout (poll : Nat → Except String (Int × String))
    (m : Nat) :
    ∀ (fuel k : Nat), (∀ i, i < fuel → nonterminalPoll poll (k + i)) →
      refresh_wait poll m k fuel =
        (false, "Timeout después de " ++ toString m ++ "s") := by
  intro fuel
  induction fuel with
  | zero => intro k _; rfl
  | succ f ih =>
      intro k h
      have h0 := h 0 (by omega)
      rw [Nat.add_zero] at h0
      unfold nonterminalPoll at h0
      obtain ⟨c, s, hpoll, hc0, hc1, hc2⟩ := h0
      rw [refresh_wait, hpoll]
      dsimp only
      rw [if_neg hc0, if_neg hc1, if_neg hc2]
      exact ih (k + 1) (fun i hi => by
        have := h (i + 1) (by omega)
        simpa [Nat.add_assoc, Nat.add_comm 1 i] using this)

theorem refresh_wait_reaches (poll : Nat → Except String (Int × String))
    (m : Nat) :
    ∀ (j fuel k : Nat), j < fuel →
      (∀ i, i < j → nonterminalPoll poll (k + i)) →
      refresh_wait poll m k fuel = refresh_wait poll m (k + j) (fuel - j) := by
  intro j
  induction j with
  | zero => intro fuel k _ _; rfl
  | succ n ih =>
      intro fuel k hj h
      obtain ⟨f, rfl⟩ : ∃ f, fuel = f + 1 :=
        ⟨fuel - 1, by omega⟩
      have h0 := h 0 (by omega)
      rw [Nat.add_zero] at h0
      unfold nonterminalPoll at h0
      obtain ⟨c, s, hpoll, hc0, hc1, hc2⟩ := h0
      rw [refresh_wait, hpoll]
      dsimp only
      rw [if_neg hc0, if_neg hc1, if_neg hc2]
      have := ih f (k + 1) (by omega) (fun i hi => by
        have := h (i + 1) (by omega)
        simpa [Nat.add_assoc, Nat.add_comm 1 i] using this)
      rw [this]
      have h1 : k + 1 + n = k + (n + 1) := by omega
      have h2 : f - n = f + 1 - (n + 1) := by omega
      rw [h1, h2]

theorem execute_job_wait_timeout
    (poll : Nat → Except String (Option String)) (m : Nat) :
    ∀ (fuel k : Nat), (∀ i, i < fuel → nonCompletedPoll poll (k + i)) →
      execute_job_wait poll m k fuel =
        (false, "Timeout esperando job después de " ++ toString m ++ "s") := by
  intro fuel
  induction fuel with
  | zero => intro k _; rfl
  | succ f ih =>
      intro k h
      have step : execute_job_wait poll m k (f + 1) =
          execute_job_wait poll m (k + 1) f := by
        rcases (by simpa [nonCompletedPoll] using h 0 (by omega) :
            poll (k + 0) = Except.ok none ∨
            ∃ s, poll (k + 0) = Except.ok (some s) ∧ s ≠ "Completed") with
          hpoll | ⟨s, hpoll, hs⟩
        · rw [execute_job_wait]
          rw [show poll k = Except.ok none from by simpa using hpoll]
        · rw [execute_job_wait]
          rw [show poll k = Except.ok (some s) from by simpa using hpoll]
          dsimp only
          rw [if_neg hs]
      rw [step]
      exact ih (k + 1) (fun i hi => by
        have := h (i + 1) (by omega)
        simpa [Nat.add_assoc, Nat.add_comm 1 i] using this)

theorem execute_job_wait_reaches
    (poll : Nat → Except String (Option String)) (m : Nat) :
    ∀ (j fuel k : Nat), j < fuel →
      (∀ i, i < j → nonCompletedPoll poll (k + i)) →
      execute_job_wait poll m k fuel =
        execute_job_wait poll m (k + j) (fuel - j) := by
  intro j
  induction j with
  | zero => intro fuel k _ _; rfl
  | succ n ih =>
      intro fuel k hj h
      obtain ⟨f, rfl⟩ : ∃ f, fuel = f + 1 :=
        ⟨fuel - 1, by omega⟩
      have step : execute_job_wait poll m k (f + 1) =
          execute_job_wait poll m (k + 1) f := by
        rcases (by simpa [nonCompletedPoll] using h 0 (by omega) :
            poll (k + 0) = Except.ok none ∨
            ∃ s, poll (k + 0) = Except.ok (some s) ∧ s ≠ "Completed") with
          hpoll | ⟨s, hpoll, hs⟩
        · rw [execute_job_wait]
          rw [show poll k = Except.ok none from by simpa using hpoll]
        · rw [execute_job_wait]
          rw [show poll k = Except.ok (some s) from by simpa using hpoll]
          dsimp only
          rw [if_neg hs]
      rw [step]
      have := ih f (k + 1) (by omega) (fun i hi => by
        have := h (i + 1) (by omega)
        simpa [Nat.add_assoc, Nat.add_comm 1 i] using this)
      rw [this]
      have h1 : k + 1 + n = k + (n + 1) := by omega
      have h2 : f - n = f + 1 - (n + 1) := by omega
      rw [h1, h2]

/-- C9: both remote waits are bounded poll loops that terminate for every
sequence of remote statuses.  `refresh_extracto` (job started, polling
every 10s up to max_wait_seconds) returns success on finish_code 0, failure
on finish_code 1 (failed) or 2 (cancelled), failure with `str(e)` when a
poll raises, and an ordinary timeout failure — not an exception — once
every poll within the bound was non-terminal.  `execute_job` (job started,
polling every check_interval up to max_wait) returns success on status
"Completed", failure with `str(e)` when a poll raises, and the timeout
failure once every poll within the bound saw no completion. -/
theorem C9_bounded_poll_waits :
    (∀ (poll : Nat → Except String (Int × String)) (m : Nat) (ds : String),
      (∀ i, i < numPolls m 10 → nonterminalPoll poll i) →
      refresh_extracto true ds (Except.ok ()) poll m =
        (false, "Timeout después de " ++ toString m ++ "s")) ∧
    (∀ (poll : Nat → Except String (Int × String)) (m : Nat) (ds : String)
        (j : Nat) (s : String), j < numPolls m 10 →
      (∀ i, i < j → nonterminalPoll poll i) →
      poll j = Except.ok (0, s) →
      refresh_extracto true ds (Except.ok ()) poll m =
        (true, "Refresh completado")) ∧
    (∀ (poll : Nat → Except String (Int × String)) (m : Nat) (ds : String)
        (j : Nat) (s : String), j < numPolls m 10 →
      (∀ i, i < j → nonterminalPoll poll i) →
      poll j = Except.ok (1, s) →
      refresh_extracto true ds (Except.ok ()) poll m =
        (false, "Refresh falló: " ++ s)) ∧
    (∀ (poll : Nat → Except String (Int × String)) (m : Nat) (ds : String)
        (j : Nat) (s : String), j < numPolls m 10 →
      (∀ i, i < j → nonterminalPoll poll i) →
      poll j = Except.ok (2, s) →
      refresh_extracto true ds (Except.ok ()) poll m =
        (false, "Refresh cancelado")) ∧
    (∀ (poll : Nat → Except String (Int × String)) (m : Nat) (ds : String)
        (j : Nat) (e : String), j < numPolls m 10 →
      (∀ i, i < j → nonterminalPoll poll i) →
      poll j = Except.error e →
      refresh_extracto true ds (Except.ok ()) poll m = (false, e)) ∧
    (∀ (qoll : Nat → Except String (Option String)) (m ci : Nat), 0 < ci →
      (∀ i, i < numPolls m ci → nonCompletedPoll qoll i) →
      execute_job (Except.ok ()) qoll true ci m =
        (false, "Timeout esperando job después de " ++ toString m ++ "s")) ∧
    (∀ (qoll : Nat → Except String (Option String)) (m ci j : Nat),
        j < numPolls m ci →
      (∀ i, i < j → nonCompletedPoll qoll i) →
      qoll j = Except.ok (some "Completed") →
      execute_job (Except.ok ()) qoll true ci m =
        (true, "Job completado exitosamente")) ∧
    (∀ (qoll : Nat → Except String (Option String)) (m ci j : Nat)
        (e : String), j < numPolls m ci →
      (∀ i, i < j → nonCompletedPoll qoll i) →
      qoll j = Except.error e →
      execute_job (Except.ok ()) qoll true ci m = (false, e)) := by
  refine ⟨?_, ?_, ?_, ?_, ?_, ?_, ?_, ?_⟩
  · intro poll m ds hnt
    rw [show refresh_extracto true ds (Except.ok ()) poll m =
      refresh_wait poll m 0 (numPolls m 10) from rfl]
    exact refresh_wait_timeout poll m (numPolls m 10) 0
      (fun i hi => by simpa using hnt i hi)
  · intro poll m ds j s hj hpre hpoll
    rw [show refresh_extracto true ds (Except.ok ()) poll m =
      refresh_wait poll m 0 (numPolls m 10) from rfl]
    rw [refresh_wait_reaches poll m j (numPolls m 10) 0 hj
      (fun i hi => by simpa using hpre i hi)]
    obtain ⟨f, hf⟩ : ∃ f, numPolls m 10 - j = f + 1 :=
      ⟨numPolls m 10 - j - 1, by omega⟩
    rw [Nat.zero_add, hf, refresh_wait, hpoll]
    dsimp only
    rw [if_pos rfl]
  · intro poll m ds j s hj hpre hpoll
    rw [show refresh_extracto true ds (Except.ok ()) poll m =
      refresh_wait poll m 0 (numPolls m 10) from rfl]
    rw [refresh_wait_reaches poll m j (numPolls m 10) 0 hj
      (fun i hi => by simpa using hpre i hi)]
    obtain ⟨f, hf⟩ : ∃ f, numPolls m 10 - j = f + 1 :=
      ⟨numPolls m 10 - j - 1, by omega⟩
    rw [Nat.zero_add, hf, refresh_wait, hpoll]
    dsimp only
    rw [if_neg (by decide), if_pos rfl]
  · intro poll m ds j s hj hpre hpoll
    rw [show refresh_extracto true ds (Except.ok ()) poll m =
      refresh_wait poll m 0 (numPolls m 10) from rfl]
    rw [refresh_wait_reaches poll m j (numPolls m 10) 0 hj
      (fun i hi => by simpa using hpre i hi)]
    obtain ⟨f, hf⟩ : ∃ f, numPolls m 10 - j = f + 1 :=
      ⟨numPolls m 10 - j - 1, by omega⟩
    rw [Nat.zero_add, hf, refresh_wait, hpoll]
    dsimp only
    rw [if_neg (by decide), if_neg (by decide), if_pos rfl]
  · intro poll m ds j e hj hpre hpoll
    rw [show refresh_extracto true ds (Except.ok ()) poll m =
      refresh_wait poll m 0 (numPolls m 10) from rfl]
    rw [refresh_wait_reaches poll m j (numPolls m 10) 0 hj
      (fun i hi => by simpa using hpre i hi)]
    obtain ⟨f, hf⟩ : ∃ f, numPolls m 10 - j = f + 1 :=
      ⟨numPolls m 10 - j - 1, by omega⟩
    rw [Nat.zero_add, hf, refresh_wait, hpoll]
  · intro qoll m ci _ hnc
    rw [show execute_job (Except.ok ()) qoll true ci m =
      execute_job_wait qoll m 0 (numPolls m ci) from rfl]
    exact execute_job_wait_timeout qoll m (numPolls m ci) 0
      (fun i hi => by simpa using hnc i hi)
  · intro qoll m ci j hj hpre hpoll
    rw [show execute_job (Except.ok ()) qoll true ci m =
      execute_job_wait qoll m 0 (numPolls m ci) from rfl]
    rw [execute_job_wait_reaches qoll m j (numPolls m ci) 0 hj
      (fun i hi => by simpa using hpre i hi)]
    obtain ⟨f, hf⟩ : ∃ f, numPolls m ci - j = f + 1 :=
      ⟨numPolls m ci - j - 1, by omega⟩
    rw [Nat.zero_add, hf, execute_job_wait, hpoll]
    dsimp only
    rw [if_pos rfl]
  · intro qoll m ci j e hj hpre hpoll
    rw [show execute_job (Except.ok ()) qoll true ci m =
      execute_job_wait qoll m 0 (numPolls m ci) from rfl]
    rw [execute_job_wait_reaches qoll m j (numPolls m ci) 0 hj
      (fun i hi => by simpa using hpre i hi)]
    obtain ⟨f, hf⟩ : ∃ f, numPolls m ci - j = f + 1 :=
      ⟨numPolls m ci - j - 1, by omega⟩
    rw [Nat.zero_add, hf, execute_job_wait, hpoll]

/-- C9 witness: concrete status sequences — an always-running refresh job
times out after the 30 bounded polls of a 300s wait; a refresh completing
on the third poll succeeds; an agent job raising on its first poll fails
with the error text. -/
theorem C9_witness :
    refresh_extracto true "Datamart Materias Primas" (Except.ok ())
        (fun _ => Except.ok (-1, "")) 300 =
      (false, "Timeout después de " ++ toString 300 ++ "s") ∧
    refresh_extracto true "Datamart Materias Primas" (Except.ok ())
        (fun i => if i < 2 then Except.ok (-1, "") else Except.ok (0, "")) 300 =
      (true, "Refresh completado") ∧
    execute_job (Except.ok ()) (fun _ => Except.error "conexión perdida")
        true 10 600 =
      (false, "conexión perdida") := by
  refine ⟨?_, ?_, ?_⟩
  · exact C9_bounded_poll_waits.1 (fun _ => Except.ok (-1, "")) 300
      "Datamart Materias Primas"
      (fun i _ => ⟨-1, "", rfl, by decide, by decide, by decide⟩)
  · exact C9_bounded_poll_waits.2.1
      (fun i => if i < 2 then Except.ok (-1, "") else Except.ok (0, "")) 300
      "Datamart Materias Primas" 2 "" (by decide)
      (fun i hi => ⟨-1, "", by
        dsimp only
        rw [if_pos (by omega)], by decide, by decide, by decide⟩)
      (by dsimp only; rw [if_neg (by omega)])
  · exact C9_bounded_poll_waits.2.2.2.2.2.2.2
      (fun _ => Except.error "conexión perdida") 600 10 0 "conexión perdida"
      (by decide) (fun i hi => absurd hi (by omega)) rfl

theorem ticketAfter_of_error (env : Env) (t : Option String) (ce : String)
    (h : env.createIssue = Except.error ce) : ticketAfter env t = t := by
  unfold ticketAfter crear_ticket_error
  cases hv : env.jiraValid with
  | false => simp
  | true => rw [h]; rfl

/-- C10: run_send_only resets the step list and the start time but NOT the
stored ticket identifier, while run_full resets all three.  Hence on an
instance whose earlier run stored a ticket, a failing run_send_only whose
new ticket creation raises sends its error alert carrying the STALE
prior-run ticket reference, and leaves it stored; run_full instead can
never end with a ticket the current run did not create. -/
theorem C10_send_only_stale_ticket (env : Env) (es_prueba reporte now : Nat)
    (st0 : WState) (errMsg ce : String)
    (h1 : env.enviarReportes es_prueba reporte = (false, errMsg))
    (h2 : env.createIssue = Except.error ce)
    (h3 : ∀ i r, env.observer i r = Except.ok ()) :
    (∃ stF, run_send_only env es_prueba reporte now st0 =
        RunOut.ok (false, errMsg) stF ∧
      stF.ticket_jira = st0.ticket_jira ∧
      stF.startTime = some now ∧
      ∃ E, stF.events = st0.events ++ E ∧
        Event.alerta ("Error en: " ++ "Envío de Correos") errMsg
          st0.ticket_jira ∈ E) ∧
    (∀ v m stF', run_full env now st0 = RunOut.ok (v, m) stF' →
      stF'.ticket_jira = none) := by
  constructor
  · have hfunc : (Except.ok (let (s, m) := env.enviarReportes es_prueba reporte
        (s, m, some {})) : Except String (Bool × String × Option Detalles)) =
        Except.ok (false, errMsg, some {}) := by rw [h1]
    have hbody : run_send_only_body env es_prueba reporte
        { st0 with startTime := some now, steps := [] } =
        RunOut.ok (false, errMsg)
          (_handle_error env
            (stepAppend { st0 with startTime := some now, steps := [] }
              (stepResultOf "Enviar Correos"
                (Except.ok (false, errMsg, some {}))))
            "Envío de Correos" errMsg) := by
      unfold run_send_only_body
      rw [hfunc]
      rcases execute_step_cases env
          { st0 with startTime := some now, steps := [] } "Enviar Correos"
          (Except.ok (false, errMsg, some {})) with hA | ⟨eA, hA, hAerr⟩
      · simp only [hA]
        rw [if_pos (show (!(stepResultOf "Enviar Correos"
          (Except.ok (false, errMsg, some {}))).success) = true from rfl)]
        rfl
      · rw [h3] at hAerr
        exact Except.noConfusion hAerr
    rw [run_send_only_eq, hbody]
    obtain ⟨hs, ht, htk, hev⟩ := handle_error_spec env
      (stepAppend { st0 with startTime := some now, steps := [] }
        (stepResultOf "Enviar Correos" (Except.ok (false, errMsg, some {}))))
      "Envío de Correos" errMsg
    refine ⟨_, rfl, ?_, ?_, ?_⟩
    · rw [htk, stepAppend_ticket]
      exact ticketAfter_of_error env _ ce h2
    · rw [ht]; rfl
    · refine ⟨[Event.observerCall (stepResultOf "Enviar Correos"
          (Except.ok (false, errMsg, some {}))),
        Event.ticketAttempt ("[AUTO] Error en Reportes MP: " ++ "Envío de Correos") errMsg,
        Event.alerta ("Error en: " ++ "Envío de Correos") errMsg
          st0.ticket_jira], ?_, ?_⟩
      · rw [hev]
        rw [stepAppend_ticket]
        rw [show ({ st0 with startTime := some now, steps := [] } : WState).ticket_jira
          = st0.ticket_jira from rfl]
        rw [ticketAfter_of_error env _ ce h2]
        simp [stepAppend_events, List.append_assoc]
      · simp
  · intro v m stF' hrun
    obtain ⟨v2, m2, stF2, hrun2, hpost⟩ := run_full_master env now st0
    rw [hrun] at hrun2
    cases hrun2
    obtain ⟨_, htk, _⟩ := hpost
    rcases htk with h | h
    · exact h
    · rw [ticketAfter_of_error env none ce h2] at h
      exact h

/-- C10 witness: on an instance holding ticket DDF-99 from an earlier run,
a failing send-only run whose ticket creation raises attaches the stale
DDF-99 reference to the new alert and keeps it stored, while run_full on
the same instance never ends with a ticket it did not create. -/
theorem C10_witness :
    (∃ stF, run_send_only envSendFail 0 0 0 stWithTicket =
        RunOut.ok (false, "SP de envío falló") stF ∧
      stF.ticket_jira = stWithTicket.ticket_jira ∧
      stF.startTime = some 0 ∧
      ∃ E, stF.events = stWithTicket.events ++ E ∧
        Event.alerta ("Error en: " ++ "Envío de Correos") "SP de envío falló"
          stWithTicket.ticket_jira ∈ E) ∧
    (∀ v m stF', run_full envSendFail 0 stWithTicket =
        RunOut.ok (v, m) stF' → stF'.ticket_jira = none) :=
  C10_send_only_stale_ticket envSendFail 0 0 0 stWithTicket
    "SP de envío falló" "jira down" rfl rfl (fun _ _ => rfl)

theorem paso3_state_steps (env : Env) (st : WState) :
    (RunOut.state (run_full_paso3 env st)).steps =
      st.steps ++ [stepResultOf "3. Descargar PDFs"
        (_descargar_pdfs env.descargarPdfs)] := by
  unfold run_full_paso3
  rcases execute_step_cases env st "3. Descargar PDFs"
      (_descargar_pdfs env.descargarPdfs) with h | ⟨e, h, _⟩
  · simp only [h]
    split
    · obtain ⟨hs, _, _, _⟩ := handle_error_spec env
        (stepAppend st (stepResultOf "3. Descargar PDFs"
          (_descargar_pdfs env.descargarPdfs)))
        "Descarga de PDFs"
        (stepResultOf "3. Descargar PDFs" (_descargar_pdfs env.descargarPdfs)).mensaje
      exact hs
    · rfl
  · simp only [h]; rfl

theorem paso4_state_steps (env : Env) (st : WState) :
    (RunOut.state (run_full_paso4 env st)).steps =
      st.steps ++ [stepResultOf "4. Copiar a DEADWH"
        (Except.ok (_copiar_archivos env.copiarArchivos))] := by
  unfold run_full_paso4
  rcases execute_step_cases env st "4. Copiar a DEADWH"
      (Except.ok (_copiar_archivos env.copiarArchivos)) with h | ⟨e, h, _⟩
  · simp only [h]
    split
    · obtain ⟨hs, _, _, _⟩ := handle_error_spec env
        (stepAppend st (stepResultOf "4. Copiar a DEADWH"
          (Except.ok (_copiar_archivos env.copiarArchivos))))
        "Copia de Archivos"
        (stepResultOf "4. Copiar a DEADWH"
          (Except.ok (_copiar_archivos env.copiarArchivos))).mensaje
      exact hs
    · rfl
  · simp only [h]; rfl

theorem paso5_state_steps (env : Env) (st : WState) :
    (RunOut.state (run_full_paso5 env st)).steps =
      st.steps ++ [stepResultOf "5. Enviar Correos"
        (Except.ok (let (s, m) := env.enviarReportes 0 0
                    (s, m, some {})))] := by
  unfold run_full_paso5
  rcases execute_step_cases env st "5. Enviar Correos"
      (Except.ok (let (s, m) := env.enviarReportes 0 0
                  (s, m, some {}))) with h | ⟨e, h, _⟩
  · simp only [h]
    split
    · obtain ⟨hs, _, _, _⟩ := handle_error_spec env
        (stepAppend st (stepResultOf "5. Enviar Correos"
          (Except.ok (let (s, m) := env.enviarReportes 0 0
                      (s, m, some {})))))
        "Envío de Correos"
        (stepResultOf "5. Enviar Correos"
          (Except.ok (let (s, m) := env.enviarReportes 0 0
                      (s, m, some {})))).mensaje
      exact hs
    · rfl
  · simp only [h]; rfl

/-- the SQL inventory gate appends its own step first; the corrective
sub-steps that may follow are only the jobs and cube steps, and when the
inventory step succeeded nothing follows it within the phase. -/
theorem paso2_shape (env : Env) (st : WState) :
    ∃ rest, (RunOut.state (run_full_paso2 env st)).steps =
        st.steps ++ (stepResultOf "2. Validar Inventario SQL"
          (_validar_inventario env.validarInventario)) :: rest ∧
      (∀ r ∈ rest, r.nombre = "2.1 Ejecutar Jobs Correctivos" ∨
        r.nombre = "2.2 Actualizar Cubo") ∧
      ((stepResultOf "2. Validar Inventario SQL"
          (_validar_inventario env.validarInventario)).success = true →
        rest = []) := by
  unfold run_full_paso2
  set rA := stepResultOf "2. Validar Inventario SQL"
    (_validar_inventario env.validarInventario) with hrA
  rcases execute_step_cases env st "2. Validar Inventario SQL"
      (_validar_inventario env.validarInventario) with hA | ⟨eA, hA, _⟩
  case inr =>
    rw [← hrA] at hA
    simp only [hA]
    exact ⟨[], by simp [RunOut.state, stepAppend_steps], by simp, fun _ => rfl⟩
  rw [← hrA] at hA
  simp only [hA]
  split
  case isFalse =>
    exact ⟨[], by simp [RunOut.state, stepAppend_steps], by simp, fun _ => rfl⟩
  case isTrue hdiff =>
  have hsA : rA.success = false := by
    cases hb : rA.success
    · rfl
    · rw [hb] at hdiff; simp at hdiff
  set rB := stepResultOf "2.1 Ejecutar Jobs Correctivos"
    (Except.ok (_ejecutar_jobs_correctivos env.executeJob rA.detalles.acciones))
    with hrB
  rcases execute_step_cases env (stepAppend st rA) "2.1 Ejecutar Jobs Correctivos"
      (Except.ok (_ejecutar_jobs_correctivos env.executeJob rA.detalles.acciones))
      with hB | ⟨eB, hB, _⟩
  case inr =>
    rw [← hrB] at hB
    simp only [hB]
    refine ⟨[rB], by simp [RunOut.state, stepAppend_steps, List.append_assoc], ?_,
      fun h => absurd h (by rw [hsA]; simp)⟩
    intro r hr; simp at hr; subst hr
    left; rw [hrB, stepResultOf_nombre]
  rw [← hrB] at hB
  simp only [hB]
  split
  · next hfB =>
    obtain ⟨hs, _, _, _⟩ := handle_error_spec env
      (stepAppend (stepAppend st rA) rB) "Jobs Correctivos" rB.mensaje
    refine ⟨[rB], ?_, ?_, fun h => absurd h (by rw [hsA]; simp)⟩
    · rw [show (RunOut.state (RunOut.ok (some (false,
        "Error en jobs correctivos: " ++ rB.mensaje))
        (_handle_error env (stepAppend (stepAppend st rA) rB)
          "Jobs Correctivos" rB.mensaje))) = _handle_error env
          (stepAppend (stepAppend st rA) rB) "Jobs Correctivos" rB.mensaje
        from rfl, hs]
      simp [stepAppend_steps, List.append_assoc]
    · intro r hr; simp at hr; subst hr
      left; rw [hrB, stepResultOf_nombre]
  next hfB =>
  set rC := stepResultOf "2.2 Actualizar Cubo"
    (Except.ok (let (s, m) := env.jobInventario
                (s, m, some {}))) with hrC
  rcases execute_step_cases env (stepAppend (stepAppend st rA) rB)
      "2.2 Actualizar Cubo"
      (Except.ok (let (s, m) := env.jobInventario
                  (s, m, some {}))) with hC | ⟨eC, hC, _⟩
  case inr =>
    rw [← hrC] at hC
    simp only [hC]
    refine ⟨[rB, rC], by simp [RunOut.state, stepAppend_steps, List.append_assoc],
      ?_, fun h => absurd h (by rw [hsA]; simp)⟩
    intro r hr; simp at hr
    rcases hr with rfl | rfl
    · left; rw [hrB, stepResultOf_nombre]
    · right; rw [hrC, stepResultOf_nombre]
  rw [← hrC] at hC
  simp only [hC]
  split
  · next hfC =>
    obtain ⟨hs, _, _, _⟩ := handle_error_spec env
      (stepAppend (stepAppend (stepAppend st rA) rB) rC)
      "Actualización de Cubo" rC.mensaje
    refine ⟨[rB, rC], ?_, ?_, fun h => absurd h (by rw [hsA]; simp)⟩
    · rw [show (RunOut.state (RunOut.ok (some (false,
        "Error actualizando cubo: " ++ rC.mensaje))
        (_handle_error env (stepAppend (stepAppend (stepAppend st rA) rB) rC)
          "Actualización de Cubo" rC.mensaje))) = _handle_error env
          (stepAppend (stepAppend (stepAppend st rA) rB) rC)
          "Actualización de Cubo" rC.mensaje from rfl, hs]
      simp [stepAppend_steps, List.append_assoc]
    · intro r hr; simp at hr
      rcases hr with rfl | rfl
      · left; rw [hrB, stepResultOf_nombre]
      · right; rw [hrC, stepResultOf_nombre]
  next hfC =>
  refine ⟨[rB, rC], by simp [RunOut.state, stepAppend_steps, List.append_assoc],
    ?_, fun h => absurd h (by rw [hsA]; simp)⟩
  intro r hr; simp at hr
  rcases hr with rfl | rfl
  · left; rw [hrB, stepResultOf_nombre]
  · right; rw [hrC, stepResultOf_nombre]

/-- with a non-raising observer, a successful inventory step makes PASO 2
fall straight through. -/
theorem paso2_succ (env : Env) (st : WState)
    (hobs : ∀ i r, env.observer i r = Except.ok ())
    (hs : (stepResultOf "2. Validar Inventario SQL"
      (_validar_inventario env.validarInventario)).success = true) :
    run_full_paso2 env st = RunOut.ok none
      (stepAppend st (stepResultOf "2. Validar Inventario SQL"
        (_validar_inventario env.validarInventario))) := by
  unfold run_full_paso2
  rcases execute_step_cases env st "2. Validar Inventario SQL"
      (_validar_inventario env.validarInventario) with hA | ⟨eA, hA, hAerr⟩
  · simp only [hA]
    rw [if_neg]
    rw [hs]
    simp
  · rw [hobs] at hAerr
    exact Except.noConfusion hAerr

theorem tail5_shape (env : Env) (st : WState) :
    ∃ Δ, (RunOut.state (run_full_tail5 env st)).steps = st.steps ++ Δ ∧
      (∀ r ∈ Δ, r.nombre = "5. Enviar Correos") := by
  unfold run_full_tail5
  have h5 := paso5_state_steps env st
  cases h : run_full_paso5 env st with
  | raised e st' =>
      rw [h] at h5
      exact ⟨[stepResultOf "5. Enviar Correos"
        (Except.ok (let (s, m) := env.enviarReportes 0 0
                    (s, m, some {})))], h5, by
        intro r hr; simp at hr; subst hr; rw [stepResultOf_nombre]⟩
  | ok val st' =>
    rw [h] at h5
    cases val with
    | some vm =>
        obtain ⟨vv, mm⟩ := vm
        exact ⟨[stepResultOf "5. Enviar Correos"
          (Except.ok (let (s, m) := env.enviarReportes 0 0
                      (s, m, some {})))], h5, by
          intro r hr; simp at hr; subst hr; rw [stepResultOf_nombre]⟩
    | none =>
        exact ⟨[stepResultOf "5. Enviar Correos"
          (Except.ok (let (s, m) := env.enviarReportes 0 0
                      (s, m, some {})))], h5, by
          intro r hr; simp at hr; subst hr; rw [stepResultOf_nombre]⟩

theorem tail4_shape (env : Env) (st : WState) :
    ∃ Δ, (RunOut.state (run_full_tail4 env st)).steps = st.steps ++ Δ ∧
      (∀ r ∈ Δ, r.nombre = "4. Copiar a DEADWH" ∨
        r.nombre = "5. Enviar Correos") := by
  unfold run_full_tail4
  have h4 := paso4_state_steps env st
  cases h : run_full_paso4 env st with
  | raised e st' =>
      rw [h] at h4
      exact ⟨[stepResultOf "4. Copiar a DEADWH"
        (Except.ok (_copiar_archivos env.copiarArchivos))], h4, by
        intro r hr; simp at hr; subst hr; left; rw [stepResultOf_nombre]⟩
  | ok val st' =>
    rw [h] at h4
    cases val with
    | some vm =>
        obtain ⟨vv, mm⟩ := vm
        exact ⟨[stepResultOf "4. Copiar a DEADWH"
          (Except.ok (_copiar_archivos env.copiarArchivos))], h4, by
          intro r hr; simp at hr; subst hr; left; rw [stepResultOf_nombre]⟩
    | none =>
        obtain ⟨Δ5, hΔ5, hn5⟩ := tail5_shape env st'
        simp only [RunOut.state] at h4
        refine ⟨[stepResultOf "4. Copiar a DEADWH"
          (Except.ok (_copiar_archivos env.copiarArchivos))] ++ Δ5, ?_, ?_⟩
        · rw [hΔ5, h4, List.append_assoc]
        · intro r hr
          rcases List.mem_append.mp hr with hr | hr
          · simp at hr; subst hr; left; rw [stepResultOf_nombre]
          · right; exact hn5 r hr

theorem tail3_shape (env : Env) (st : WState) :
    ∃ r3 Δrest, (RunOut.state (run_full_tail3 env st)).steps =
        st.steps ++ r3 :: Δrest ∧
      r3.nombre = "3. Descargar PDFs" ∧
      (∀ r ∈ Δrest, r.nombre = "4. Copiar a DEADWH" ∨
        r.nombre = "5. Enviar Correos") := by
  unfold run_full_tail3
  have h3 := paso3_state_steps env st
  cases h : run_full_paso3 env st with
  | raised e st' =>
      rw [h] at h3
      exact ⟨stepResultOf "3. Descargar PDFs" (_descargar_pdfs env.descargarPdfs),
        [], h3, stepResultOf_nombre _ _, by simp⟩
  | ok val st' =>
    rw [h] at h3
    cases val with
    | some vm =>
        obtain ⟨vv, mm⟩ := vm
        exact ⟨stepResultOf "3. Descargar PDFs" (_descargar_pdfs env.descargarPdfs),
          [], h3, stepResultOf_nombre _ _, by simp⟩
    | none =>
        obtain ⟨Δ4, hΔ4, hn4⟩ := tail4_shape env st'
        simp only [RunOut.state] at h3
        refine ⟨stepResultOf "3. Descargar PDFs" (_descargar_pdfs env.descargarPdfs),
          Δ4, ?_, stepResultOf_nombre _ _, hn4⟩
        rw [hΔ4, h3, List.append_assoc]
        rfl

theorem tail2_shape (env : Env) (st : WState) :
    ∃ Δ2 Δ3, (RunOut.state (run_full_tail2 env st)).steps =
        st.steps ++ (Δ2 ++ Δ3) ∧
      (Δ2 = [] ∨ ∃ rest, Δ2 = (stepResultOf "2. Validar Inventario SQL"
          (_validar_inventario env.validarInventario)) :: rest ∧
        (∀ r ∈ rest, r.nombre = "2.1 Ejecutar Jobs Correctivos" ∨
          r.nombre = "2.2 Actualizar Cubo") ∧
        ((stepResultOf "2. Validar Inventario SQL"
            (_validar_inventario env.validarInventario)).success = true →
          rest = [])) ∧
      (∀ r ∈ Δ3, r.nombre = "3. Descargar PDFs" ∨
        r.nombre = "4. Copiar a DEADWH" ∨ r.nombre = "5. Enviar Correos") := by
  unfold run_full_tail2
  obtain ⟨rest, hsteps2, hnames2, hsucc2⟩ := paso2_shape env st
  cases h : run_full_paso2 env st with
  | raised e st2 =>
      rw [h] at hsteps2
      simp only [RunOut.state] at hsteps2
      exact ⟨(stepResultOf "2. Validar Inventario SQL"
          (_validar_inventario env.validarInventario)) :: rest, [],
        by rw [List.append_nil]; exact hsteps2,
        Or.inr ⟨rest, rfl, hnames2, hsucc2⟩, by simp⟩
  | ok val st2 =>
    rw [h] at hsteps2
    simp only [RunOut.state] at hsteps2
    cases val with
    | some vm =>
        obtain ⟨vv, mm⟩ := vm
        exact ⟨(stepResultOf "2. Validar Inventario SQL"
            (_validar_inventario env.validarInventario)) :: rest, [],
          by rw [List.append_nil]; exact hsteps2,
          Or.inr ⟨rest, rfl, hnames2, hsucc2⟩, by simp⟩
    | none =>
        obtain ⟨r3, Δrest, hsteps3, hname3, hnames3⟩ := tail3_shape env st2
        refine ⟨(stepResultOf "2. Validar Inventario SQL"
            (_validar_inventario env.validarInventario)) :: rest,
          r3 :: Δrest, ?_, Or.inr ⟨rest, rfl, hnames2, hsucc2⟩, ?_⟩
        · rw [hsteps3, hsteps2]
          simp [List.append_assoc]
        · intro r hr
          rcases List.mem_cons.mp hr with rfl | hr
          · left; exact hname3
          · right; exact hnames3 r hr

theorem run_full_shape (env : Env) (now : Nat) (st0 : WState) :
    ∃ v m stF, run_full env now st0 = RunOut.ok (v, m) stF ∧
      ∃ Δ1 Δ2 Δ3,
        stF.steps = Δ1 ++ (Δ2 ++ Δ3) ∧
        (∀ r ∈ Δ1, r.nombre ∈ paso1Names) ∧
        (Δ2 = [] ∨ ∃ rest, Δ2 = (stepResultOf "2. Validar Inventario SQL"
            (_validar_inventario env.validarInventario)) :: rest ∧
          (∀ r ∈ rest, r.nombre = "2.1 Ejecutar Jobs Correctivos" ∨
            r.nombre = "2.2 Actualizar Cubo") ∧
          ((stepResultOf "2. Validar Inventario SQL"
              (_validar_inventario env.validarInventario)).success = true →
            rest = [])) ∧
        (∀ r ∈ Δ3, r.nombre = "3. Descargar PDFs" ∨
          r.nombre = "4. Copiar a DEADWH" ∨ r.nombre = "5. Enviar Correos") := by
  rw [run_full_eq]
  have H1 := paso1_inv env
    { st0 with startTime := some now, steps := [], ticket_jira := none }
  cases h1 : run_full_paso1 env
      { st0 with startTime := some now, steps := [], ticket_jira := none } with
  | raised e st' =>
      rw [h1] at H1
      obtain ⟨_, _, Δ, E, hsteps, _, hnames, _, _, _⟩ := H1
      have hbody : run_full_body env
          { st0 with startTime := some now, steps := [], ticket_jira := none } =
          RunOut.raised e st' := by
        unfold run_full_body; rw [h1]
      rw [hbody]
      obtain ⟨hs, _, _, _⟩ := handle_error_spec env st' "Error Inesperado" e
      refine ⟨false, e, _, rfl, Δ, [], [], ?_, hnames, Or.inl rfl, by simp⟩
      rw [List.append_nil, List.append_nil, hs, hsteps]
      rfl
  | ok val st' =>
    rw [h1] at H1
    cases val with
    | some vm =>
        obtain ⟨vv, mm⟩ := vm
        obtain ⟨_, _, _, Δ, E, hsteps, _, hnames, _, _, _⟩ := H1
        have hbody : run_full_body env
            { st0 with startTime := some now, steps := [], ticket_jira := none } =
            RunOut.ok (vv, mm) st' := by
          unfold run_full_body; rw [h1]
        rw [hbody]
        refine ⟨vv, mm, st', rfl, Δ, [], [], ?_, hnames, Or.inl rfl, by simp⟩
        rw [List.append_nil, List.append_nil, hsteps]
        rfl
    | none =>
      obtain ⟨_, _, Δ1, E, hsteps1, _, hnames1, _, _, _⟩ := H1
      have hbody : run_full_body env
          { st0 with startTime := some now, steps := [], ticket_jira := none } =
          run_full_tail2 env st' := by
        unfold run_full_body; rw [h1]
      rw [hbody]
      obtain ⟨Δ2, Δ3, hsteps23, hΔ2, hnames3⟩ := tail2_shape env st'
      cases h2 : run_full_tail2 env st' with
      | raised e st2 =>
          rw [h2] at hsteps23
          simp only [RunOut.state] at hsteps23
          obtain ⟨hs, _, _, _⟩ := handle_error_spec env st2 "Error Inesperado" e
          refine ⟨false, e, _, rfl, Δ1, Δ2, Δ3, ?_, hnames1, hΔ2, hnames3⟩
          rw [hs, hsteps23, hsteps1]
          simp [List.append_assoc]
      | ok vb st2 =>
          rw [h2] at hsteps23
          simp only [RunOut.state] at hsteps23
          obtain ⟨vv, mm⟩ := vb
          refine ⟨vv, mm, st2, rfl, Δ1, Δ2, Δ3, ?_, hnames1, hΔ2, hnames3⟩
          rw [hsteps23, hsteps1]
          simp [List.append_assoc]

/-- C4: when the reconciliation step succeeded (no differences), the run
contains no corrective-jobs step and no cube-refresh step at all, and —
under a non-raising observer — execution proceeds from that step directly
to the "3. Descargar PDFs" gate. -/
theorem C4_no_differences_skips_correctives (env : Env) (now : Nat)
    (st0 : WState) (v : Bool) (m : String) (stF : WState)
    (hrun : run_full env now st0 = RunOut.ok (v, m) stF)
    (hsucc2 : ∃ r ∈ stF.steps, r.nombre = "2. Validar Inventario SQL" ∧
      r.success = true) :
    (∀ r ∈ stF.steps, r.nombre ≠ "2.1 Ejecutar Jobs Correctivos" ∧
      r.nombre ≠ "2.2 Actualizar Cubo") ∧
    ((∀ i r', env.observer i r' = Except.ok ()) →
      ∃ pre r2 post, stF.steps = pre ++ r2 :: post ∧
        r2.nombre = "2. Validar Inventario SQL" ∧ r2.success = true ∧
        ∃ r3 rest3, post = r3 :: rest3 ∧ r3.nombre = "3. Descargar PDFs") := by
  obtain ⟨v', m', stF', hrun', Δ1, Δ2, Δ3, hsteps, hn1, hΔ2, hn3⟩ :=
    run_full_shape env now st0
  rw [hrun] at hrun'
  injection hrun' with hv' hst'
  subst hst'
  obtain ⟨r, hrmem, hrname, hrsucc⟩ := hsucc2
  rcases hΔ2 with hΔ2nil | ⟨rest, hΔ2eq, hrestnames, hrestnil⟩
  · exfalso
    rw [hsteps, hΔ2nil, List.nil_append] at hrmem
    rcases List.mem_append.mp hrmem with h | h
    · have := hn1 r h
      rw [hrname] at this
      exact absurd this (by decide)
    · rcases hn3 r h with h2 | h2 | h2 <;> rw [hrname] at h2 <;> simp at h2
  · have hs : (stepResultOf "2. Validar Inventario SQL"
        (_validar_inventario env.validarInventario)).success = true := by
      rw [hsteps, hΔ2eq] at hrmem
      rcases List.mem_append.mp hrmem with h | h
      · have := hn1 r h
        rw [hrname] at this
        exact absurd this (by decide)
      · rcases List.mem_append.mp h with h | h
        · rcases List.mem_cons.mp h with rfl | h
          · exact hrsucc
          · rcases hrestnames r h with h2 | h2 <;> rw [hrname] at h2 <;>
              simp at h2
        · rcases hn3 r h with h2 | h2 | h2 <;> rw [hrname] at h2 <;> simp at h2
    have hrest : rest = [] := hrestnil hs
    constructor
    · intro r' hr'mem
      rw [hsteps, hΔ2eq, hrest] at hr'mem
      rcases List.mem_append.mp hr'mem with h | h
      · have := hn1 r' h
        constructor <;> intro heq <;> rw [heq] at this <;>
          exact absurd this (by decide)
      · rcases List.mem_append.mp h with h | h
        · rcases List.mem_cons.mp h with rfl | h
          · rw [stepResultOf_nombre]
            exact ⟨by simp, by simp⟩
          · simp at h
        · rcases hn3 r' h with h2 | h2 | h2 <;> rw [h2] <;>
            exact ⟨by simp, by simp⟩
    · intro hobs
      rw [run_full_eq] at hrun
      have H1 := paso1_inv env
        { st0 with startTime := some now, steps := [], ticket_jira := none }
      cases h1 : run_full_paso1 env
          { st0 with startTime := some now, steps := [], ticket_jira := none } with
      | raised e st' =>
          exfalso
          have hbody : run_full_body env
              { st0 with startTime := some now, steps := [], ticket_jira := none } =
              RunOut.raised e st' := by
            unfold run_full_body; rw [h1]
          rw [hbody] at hrun
          injection hrun with hv2 hst2
          rw [h1] at H1
          obtain ⟨_, _, Δ, E, hsteps', _, hnames', _, _, _⟩ := H1
          obtain ⟨hsH, _, _, _⟩ := handle_error_spec env st' "Error Inesperado" e
          have hnil : ({ st0 with startTime := some now, steps := [], ticket_jira := none } : WState).steps = [] := rfl
          rw [← hst2, hsH, hsteps', hnil, List.nil_append] at hrmem
          have := hnames' r hrmem
          rw [hrname] at this
          exact absurd this (by decide)
      | ok val st' =>
        cases val with
        | some vm =>
            exfalso
            obtain ⟨vv, mm⟩ := vm
            have hbody : run_full_body env
                { st0 with startTime := some now, steps := [], ticket_jira := none } =
                RunOut.ok (vv, mm) st' := by
              unfold run_full_body; rw [h1]
            rw [hbody] at hrun
            injection hrun with hv2 hst2
            rw [h1] at H1
            obtain ⟨_, _, _, Δ, E, hsteps', _, hnames', _, _, _⟩ := H1
            have hnil : ({ st0 with startTime := some now, steps := [], ticket_jira := none } : WState).steps = [] := rfl
            rw [← hst2, hsteps', hnil, List.nil_append] at hrmem
            have := hnames' r hrmem
            rw [hrname] at this
            exact absurd this (by decide)
        | none =>
            have hbody : run_full_body env
                { st0 with startTime := some now, steps := [], ticket_jira := none } =
                run_full_tail2 env st' := by
              unfold run_full_body; rw [h1]
            rw [hbody] at hrun
            have htail2 : run_full_tail2 env st' =
                run_full_tail3 env (stepAppend st'
                  (stepResultOf "2. Validar Inventario SQL"
                    (_validar_inventario env.validarInventario))) := by
              unfold run_full_tail2
              rw [paso2_succ env st' hobs hs]
            rw [htail2] at hrun
            obtain ⟨r3, Δrest, hsteps3, hname3, _⟩ := tail3_shape env
              (stepAppend st' (stepResultOf "2. Validar Inventario SQL"
                (_validar_inventario env.validarInventario)))
            cases h3 : run_full_tail3 env
                (stepAppend st' (stepResultOf "2. Validar Inventario SQL"
                  (_validar_inventario env.validarInventario))) with
            | ok vb stB =>
                rw [h3] at hrun hsteps3
                simp only [RunOut.state] at hsteps3
                injection hrun with hv3 hst3
                refine ⟨st'.steps, stepResultOf "2. Validar Inventario SQL"
                  (_validar_inventario env.validarInventario),
                  r3 :: Δrest, ?_, stepResultOf_nombre _ _, hs, r3, Δrest,
                  rfl, hname3⟩
                rw [← hst3, hsteps3, stepAppend_steps, List.append_assoc]
                rfl
            | raised e stR =>
                rw [h3] at hrun hsteps3
                simp only [RunOut.state] at hsteps3
                injection hrun with hv3 hst3
                obtain ⟨hsH, _, _, _⟩ := handle_error_spec env stR
                  "Error Inesperado" e
                refine ⟨st'.steps, stepResultOf "2. Validar Inventario SQL"
                  (_validar_inventario env.validarInventario),
                  r3 :: Δrest, ?_, stepResultOf_nombre _ _, hs, r3, Δrest,
                  rfl, hname3⟩
                rw [← hst3, hsH, hsteps3, stepAppend_steps, List.append_assoc]
                rfl

/-- C4 witness: a no-differences run — the inventory step succeeds, no
corrective or cube step appears, and the step after the inventory gate is
the PDF gate. -/
theorem C4_witness :
    (∀ r ∈ (RunOut.state (run_full envOk 0 initState)).steps,
      r.nombre ≠ "2.1 Ejecutar Jobs Correctivos" ∧
      r.nombre ≠ "2.2 Actualizar Cubo") ∧
    (∃ pre r2 post, (RunOut.state (run_full envOk 0 initState)).steps =
        pre ++ r2 :: post ∧
      r2.nombre = "2. Validar Inventario SQL" ∧ r2.success = true ∧
      ∃ r3 rest3, post = r3 :: rest3 ∧ r3.nombre = "3. Descargar PDFs") :=
  ⟨(C4_no_differences_skips_correctives envOk 0 initState true
      ("Proceso completado en " ++ fmtSecs)
      (RunOut.state (run_full envOk 0 initState)) rfl (by decide)).1,
   (C4_no_differences_skips_correctives envOk 0 initState true
      ("Proceso completado en " ++ fmtSecs)
      (RunOut.state (run_full envOk 0 initState)) rfl (by decide)).2
     (fun _ _ => rfl)⟩
